import Mathlib

/-!
# Tizen `ThreadStackManagerImpl`: connectivity state machine, SRP registry, attach orchestration

Shallow embedding of `src/platform/Tizen/ThreadStackManagerImpl.cpp`.

* The manager object is the record `ThreadStackManagerImpl`; everything the manager
  talks to (native Thread stack, platform event queue, system-layer work queue, the
  connect callbacks) is made observable in `World`.
* The native Thread stack is an oracle `NativeStack`: the reply to the `n`-th native
  call (counted over the whole run) is read at index `n`. Every native call is also
  appended to `World.nativeCalls`, so "no native call was made" is a statement about
  that log.
* `PlatformMgr().PostEventOrDie` appends to `World.postedEvents`;
  `SystemLayer().ScheduleLambda` appends to `World.scheduled`;
  `ConnectCallback::OnResult` appends to `World.onResultLog`.
-/

namespace chip.DeviceLayer

/-! ## Native types (`thread.h`) -/

/-- Native device role `thread_device_role_e`: the five enumerators named in the source and
every other value the C enum can carry. -/
inductive thread_device_role_e where
  | THREAD_DEVICE_ROLE_DISABLED
  | THREAD_DEVICE_ROLE_DETACHED
  | THREAD_DEVICE_ROLE_CHILD
  | THREAD_DEVICE_ROLE_ROUTER
  | THREAD_DEVICE_ROLE_LEADER
  | unrecognised (value : Nat)
  deriving DecidableEq

/-- Native status code (`int threadErr`): the two codes the source compares against and
every other code. -/
inductive thread_error_e where
  | THREAD_ERROR_NONE
  | THREAD_ERROR_ALREADY_DONE
  | other (code : Int)
  deriving DecidableEq

/-- Calls into the native Thread stack, with the arguments that matter to the manager. -/
inductive NativeCall where
  | thread_initialize_call
  | thread_deinitialize_call
  | thread_enable
  | thread_get_device_role
  | thread_set_device_role_changed_cb
  | thread_srp_client_start
  | thread_srp_client_stop
  | thread_srp_server_start
  | thread_srp_server_stop
  | thread_network_set_active_dataset_tlvs (tlvs : List Nat)
  | thread_network_get_active_dataset_tlvs
  | thread_network_attach
  | thread_start
  | thread_stop
  | thread_set_device_type
  | thread_get_device_type
  | thread_srp_client_register_service_full (instanceName name : String) (port : Nat)
      (txtEntryCount : Nat)
  | thread_srp_client_remove_service (instanceName name : String)
  | thread_srp_client_set_host_name (hostName : String)
  | thread_get_ipaddr
  deriving DecidableEq

/-- The native stack as an oracle: what the call number `n` of the run answers. -/
structure NativeStack where
  status : Nat → thread_error_e
  deviceRole : Nat → thread_device_role_e
  datasetTlvs : Nat → List Nat

/-! ## CHIP types -/

inductive CHIP_ERROR where
  | CHIP_NO_ERROR
  | CHIP_ERROR_UNINITIALIZED
  | CHIP_ERROR_INVALID_ARGUMENT
  | CHIP_ERROR_INTERNAL
  | CHIP_ERROR_NOT_IMPLEMENTED
  | CHIP_ERROR_INVALID_STRING_LENGTH
  deriving DecidableEq

inductive ConnectivityChange where
  | kConnectivity_Established
  | kConnectivity_Lost
  deriving DecidableEq

/-- The three device events this file posts, each with the payload field it sets. -/
inductive ChipDeviceEvent where
  | kThreadConnectivityChange (Result : ConnectivityChange)
  | kThreadStateChange (RoleChanged : Bool)
  | kServiceProvisioningChange (IsServiceProvisioned : Bool)
  deriving DecidableEq

/-- Status values of `NetworkCommissioning::Status` passed to `OnResult` here. -/
inductive Status where
  | kSuccess
  | kUnknownError
  deriving DecidableEq

/-- The two lambdas `_SetThreadEnabled` hands to `ScheduleLambda`, each capturing
`threadErr` by value. -/
inductive ScheduledLambda where
  | attachReport (threadErr : thread_error_e)
  | startReport (threadErr : thread_error_e)
  deriving DecidableEq

/-- A `Dnssd::TextEntry`: key, payload bytes and the `size_t mDataSize`. -/
structure TextEntry where
  mKey : String
  mData : List Nat
  mDataSize : Nat
  deriving DecidableEq

/-- Record `SrpClientService` of the registry `mSrpClientServices`. -/
structure SrpClientService where
  mInstanceName : String
  mName : String
  mPort : Nat
  mValid : Bool
  deriving DecidableEq

/-- Member variables of `ThreadStackManagerImpl`. `mpConnectCallback = none` is `nullptr`;
a callback object is identified by a number. `mDataset` is the cached TLV blob. -/
structure ThreadStackManagerImpl where
  mIsAttached : Bool
  mIsInitialized : Bool
  mpConnectCallback : Option Nat
  mDataset : List Nat
  mSrpClientServices : List SrpClientService
  deriving DecidableEq

/-- The manager together with everything it has done to its collaborators. -/
structure World where
  mgr : ThreadStackManagerImpl
  nativeCalls : List NativeCall
  postedEvents : List ChipDeviceEvent
  scheduled : List ScheduledLambda
  onResultLog : List (Nat × Status)
  deriving DecidableEq

/-- What the translation unit takes from outside: the build flag
`CHIP_DEVICE_CONFIG_ENABLE_THREAD_SRP_CLIENT`, the sizes of the two `char` arrays of
`SrpClientService` (declared in the header), the two predicates of
`Thread::OperationalDataset` used here and its `Init(ByteSpan)` (old content and span give
the new content), and the native stack. -/
structure Env where
  CHIP_DEVICE_CONFIG_ENABLE_THREAD_SRP_CLIENT : Bool
  sizeofInstanceName : Nat
  sizeofName : Nat
  IsValid : List Nat → Bool
  IsCommissioned : List Nat → Bool
  Init : List Nat → List Nat → List Nat
  native : NativeStack

/-- The constructor: `mIsAttached(false), mIsInitialized(false)`, no callback, empty
dataset, empty registry; nothing has happened yet. -/
def World.fresh : World :=
  { mgr := { mIsAttached := false, mIsInitialized := false, mpConnectCallback := none,
             mDataset := [], mSrpClientServices := [] },
    nativeCalls := [], postedEvents := [], scheduled := [], onResultLog := [] }

/-! ## Collaborator primitives -/

/-- Status the oracle gives to the native call about to be made. -/
def World.nextStatus (env : Env) (w : World) : thread_error_e :=
  env.native.status w.nativeCalls.length

/-- Role the oracle gives to the native call about to be made. -/
def World.nextRole (env : Env) (w : World) : thread_device_role_e :=
  env.native.deviceRole w.nativeCalls.length

/-- Dataset the oracle gives to the native call about to be made. -/
def World.nextTlvs (env : Env) (w : World) : List Nat :=
  env.native.datasetTlvs w.nativeCalls.length

/-- Perform a native call: it is appended to the log. -/
def World.call (w : World) (c : NativeCall) : World :=
  { w with nativeCalls := w.nativeCalls ++ [c] }

/-- Call `PlatformMgr().PostEventOrDie(&event)`. -/
def World.PostEventOrDie (w : World) (e : ChipDeviceEvent) : World :=
  { w with postedEvents := w.postedEvents ++ [e] }

/-- Call `DeviceLayer::SystemLayer().ScheduleLambda(...)`. -/
def World.ScheduleLambda (w : World) (l : ScheduledLambda) : World :=
  { w with scheduled := w.scheduled ++ [l] }

/-! ## Connectivity state machine -/

/-- The `#if CHIP_DEVICE_CONFIG_ENABLE_THREAD_SRP_CLIENT` block of
`ThreadDeviceRoleChangedHandler`: role-keyed SRP client/server toggling. The native
results are only logged by the source, so they do not influence the state. -/
def srpRoleSideEffects (role : thread_device_role_e) (w : World) : World :=
  if role = .THREAD_DEVICE_ROLE_DISABLED then
    w.call .thread_srp_client_start
  else if role = .THREAD_DEVICE_ROLE_ROUTER ∨ role = .THREAD_DEVICE_ROLE_CHILD then
    (w.call .thread_srp_server_stop).call .thread_srp_client_start
  else if role = .THREAD_DEVICE_ROLE_LEADER then
    (w.call .thread_srp_client_stop).call .thread_srp_server_start
  else
    w

/-- Method `ThreadStackManagerImpl::ThreadDeviceRoleChangedHandler(role)`. -/
def ThreadDeviceRoleChangedHandler (env : Env) (role : thread_device_role_e) (w : World) :
    World :=
  let isAttached : Bool :=
    (role != .THREAD_DEVICE_ROLE_DISABLED) && (role != .THREAD_DEVICE_ROLE_DETACHED)
  let w1 :=
    if isAttached != w.mgr.mIsAttached then
      w.PostEventOrDie (.kThreadConnectivityChange
        (if isAttached then .kConnectivity_Established else .kConnectivity_Lost))
    else w
  let w2 : World := { w1 with mgr := { w1.mgr with mIsAttached := isAttached } }
  let w3 := if env.CHIP_DEVICE_CONFIG_ENABLE_THREAD_SRP_CLIENT then srpRoleSideEffects role w2
    else w2
  w3.PostEventOrDie (.kThreadStateChange true)

/-- Method `ThreadStackManagerImpl::_ThreadDeviceRoleChangedCb`: the native notification
forwards to the handler. -/
def _ThreadDeviceRoleChangedCb (env : Env) (deviceRole : thread_device_role_e) (w : World) :
    World :=
  ThreadDeviceRoleChangedHandler env deviceRole w

/-- Method `ThreadStackManagerImpl::_IsThreadAttached()`. -/
def _IsThreadAttached (w : World) : Bool :=
  w.mgr.mIsAttached

/-- A run of native role notifications, delivered one after the other. -/
def roleNotifications (env : Env) (roles : List thread_device_role_e) (w : World) : World :=
  roles.foldl (fun acc role => _ThreadDeviceRoleChangedCb env role acc) w

/-- The `exit:` label of `_InitThreadStack`: deinitialize the native stack and fail. -/
def _InitThreadStack.initExit (w : World) : CHIP_ERROR × World :=
  (.CHIP_ERROR_INTERNAL, w.call .thread_deinitialize_call)

/-- Method `ThreadStackManagerImpl::_InitThreadStack()`. -/
def _InitThreadStack (env : Env) (w : World) : CHIP_ERROR × World :=
  if w.mgr.mIsInitialized then (.CHIP_NO_ERROR, w)
  else
    let threadErr1 := w.nextStatus env
    let w1 := w.call .thread_initialize_call
    if threadErr1 ≠ .THREAD_ERROR_NONE then _InitThreadStack.initExit w1
    else
      let threadErr2 := w1.nextStatus env
      let w2 := w1.call .thread_enable
      if threadErr2 ≠ .THREAD_ERROR_NONE then _InitThreadStack.initExit w2
      else
        let threadErr3 := w2.nextStatus env
        let deviceRole := w2.nextRole env
        let w3 := w2.call .thread_get_device_role
        if threadErr3 ≠ .THREAD_ERROR_NONE then _InitThreadStack.initExit w3
        else
          let w4 := ThreadDeviceRoleChangedHandler env deviceRole w3
          let threadErr5 := w4.nextStatus env
          let w5 := w4.call .thread_set_device_role_changed_cb
          if threadErr5 ≠ .THREAD_ERROR_NONE then _InitThreadStack.initExit w5
          else (.CHIP_NO_ERROR, { w5 with mgr := { w5.mgr with mIsInitialized := true } })

/-! ## Provisioning store -/

/-- Method `ThreadStackManagerImpl::_SetThreadProvision(netInfo)`. -/
def _SetThreadProvision (env : Env) (netInfo : List Nat) (w : World) : CHIP_ERROR × World :=
  if ¬ w.mgr.mIsInitialized then (.CHIP_ERROR_UNINITIALIZED, w)
  else if ¬ env.IsValid netInfo then (.CHIP_ERROR_INVALID_ARGUMENT, w)
  else
    let threadErr := w.nextStatus env
    let w1 := w.call (.thread_network_set_active_dataset_tlvs netInfo)
    if threadErr ≠ .THREAD_ERROR_NONE then (.CHIP_ERROR_INTERNAL, w1)
    else (.CHIP_NO_ERROR, w1.PostEventOrDie (.kServiceProvisioningChange true))

/-- Method `ThreadStackManagerImpl::_GetThreadProvision(dataset)`: the out-parameter
`dataset` is passed in and returned. -/
def _GetThreadProvision (env : Env) (dataset : List Nat) (w : World) :
    CHIP_ERROR × List Nat × World :=
  if ¬ w.mgr.mIsInitialized then (.CHIP_ERROR_UNINITIALIZED, dataset, w)
  else
    let threadErr := w.nextStatus env
    let tlvs := w.nextTlvs env
    let w1 := w.call .thread_network_get_active_dataset_tlvs
    if threadErr ≠ .THREAD_ERROR_NONE then (.CHIP_ERROR_INTERNAL, dataset, w1)
    else
      let mDataset := env.Init w1.mgr.mDataset tlvs
      (.CHIP_NO_ERROR, env.Init dataset mDataset,
        { w1 with mgr := { w1.mgr with mDataset := mDataset } })

/-- Method `ThreadStackManagerImpl::_IsThreadProvisioned()`. -/
def _IsThreadProvisioned (env : Env) (w : World) : Bool :=
  env.IsCommissioned w.mgr.mDataset

/-- Method `ThreadStackManagerImpl::_ErasePersistentInfo()`: `mDataset.Clear()`. -/
def _ErasePersistentInfo (w : World) : World :=
  { w with mgr := { w.mgr with mDataset := [] } }

/-! ## Enable / disable and attach -/

/-- Method `ThreadStackManagerImpl::_IsThreadEnabled()`. -/
def _IsThreadEnabled (env : Env) (w : World) : Bool × World :=
  if ¬ w.mgr.mIsInitialized then (false, w)
  else
    let threadErr := w.nextStatus env
    let deviceRole := w.nextRole env
    let w1 := w.call .thread_get_device_role
    if threadErr ≠ .THREAD_ERROR_NONE then (false, w1)
    else (deviceRole != .THREAD_DEVICE_ROLE_DISABLED, w1)

/-- The common tail of `_SetThreadEnabled`: re-query the role and feed it to the handler. -/
def _SetThreadEnabled.requery (env : Env) (w : World) : CHIP_ERROR × World :=
  let threadErr := w.nextStatus env
  let deviceRole := w.nextRole env
  let w1 := w.call .thread_get_device_role
  if threadErr ≠ .THREAD_ERROR_NONE then (.CHIP_ERROR_INTERNAL, w1)
  else (.CHIP_NO_ERROR, ThreadDeviceRoleChangedHandler env deviceRole w1)

/-- The `if (val && !isEnabled)` block of `_SetThreadEnabled` and what follows it: native
attach, first deferred report, native start, second deferred report, then the common
tail. -/
def _SetThreadEnabled.enable (env : Env) (w : World) : CHIP_ERROR × World :=
  let threadErr1 := w.nextStatus env
  let w1 := (w.call .thread_network_attach).ScheduleLambda (.attachReport threadErr1)
  if threadErr1 ≠ .THREAD_ERROR_NONE then (.CHIP_ERROR_INTERNAL, w1)
  else
    let threadErr2 := w1.nextStatus env
    let w2 := (w1.call .thread_start).ScheduleLambda (.startReport threadErr2)
    if threadErr2 ≠ .THREAD_ERROR_NONE then (.CHIP_ERROR_INTERNAL, w2)
    else _SetThreadEnabled.requery env w2

/-- The `else if (!val && isEnabled)` block of `_SetThreadEnabled` and what follows it:
native stop, then the common tail. -/
def _SetThreadEnabled.disable (env : Env) (w : World) : CHIP_ERROR × World :=
  let threadErr := w.nextStatus env
  let w1 := w.call .thread_stop
  if threadErr ≠ .THREAD_ERROR_NONE then (.CHIP_ERROR_INTERNAL, w1)
  else _SetThreadEnabled.requery env w1

/-- Method `ThreadStackManagerImpl::_SetThreadEnabled(val)`. -/
def _SetThreadEnabled (env : Env) (val : Bool) (w : World) : CHIP_ERROR × World :=
  if ¬ w.mgr.mIsInitialized then (.CHIP_ERROR_UNINITIALIZED, w)
  else
    let isEnabled := (_IsThreadEnabled env w).1
    let w0 := (_IsThreadEnabled env w).2
    if val && !isEnabled then _SetThreadEnabled.enable env w0
    else if !val && isEnabled then _SetThreadEnabled.disable env w0
    else _SetThreadEnabled.requery env w0

/-- Method `ThreadStackManagerImpl::_AttachToThreadNetwork(dataset, callback)`; `dataset` is
given by its bytes (`AsByteSpan()`), `callback = none` is a null pointer. -/
def _AttachToThreadNetwork (env : Env) (dataset : List Nat) (callback : Option Nat)
    (w : World) : CHIP_ERROR × World :=
  let w0 : World := { w with mgr := { w.mgr with mpConnectCallback := none } }
  let r1 := _SetThreadEnabled env false w0
  if r1.1 ≠ .CHIP_NO_ERROR then r1
  else
    let r2 := _SetThreadProvision env dataset r1.2
    if r2.1 ≠ .CHIP_NO_ERROR then r2
    else if env.IsCommissioned dataset then
      let r3 := _SetThreadEnabled env true r2.2
      if r3.1 ≠ .CHIP_NO_ERROR then r3
      else (.CHIP_NO_ERROR, { r3.2 with mgr := { r3.2.mgr with mpConnectCallback := callback } })
    else (.CHIP_NO_ERROR, r2.2)

/-- Statement `mpConnectCallback->OnResult(status, CharSpan(), 0)` followed by
`mpConnectCallback = nullptr`. -/
def World.reportAndClear (w : World) (cb : Nat) (status : Status) : World :=
  { w with onResultLog := w.onResultLog ++ [(cb, status)],
           mgr := { w.mgr with mpConnectCallback := none } }

/-- Body of a scheduled lambda, run by the system layer. -/
def ScheduledLambda.run (l : ScheduledLambda) (w : World) : World :=
  match l with
  | .attachReport threadErr =>
    match w.mgr.mpConnectCallback with
    | some cb =>
      if threadErr ≠ .THREAD_ERROR_NONE then w.reportAndClear cb .kUnknownError else w
    | none => w
  | .startReport threadErr =>
    match w.mgr.mpConnectCallback with
    | some cb =>
      w.reportAndClear cb (if threadErr = .THREAD_ERROR_NONE then .kSuccess else .kUnknownError)
    | none => w

/-- The host scheduler takes the oldest scheduled work item off its queue and runs it. -/
def runNextScheduled (w : World) : World :=
  match w.scheduled with
  | [] => w
  | l :: rest => l.run { w with scheduled := rest }

/-- The host scheduler works through the given queue content, oldest item first. -/
def runScheduledItems : List ScheduledLambda → World → World
  | [], w => w
  | l :: rest, w => runScheduledItems rest (l.run { w with scheduled := rest })

/-- The host scheduler runs every scheduled work item, oldest first. -/
def runAllScheduled (w : World) : World :=
  runScheduledItems w.scheduled w

/-! ## Service discovery registry -/

/-- Modelled from the spec: `chip::CanCastTo<uint8_t>`, defined in lib/support/SafeInt.h
outside the translated file; the spec calls it the single-byte length bound, so a `size_t`
value passes exactly when it is at most 255. -/
def CanCastTo_uint8_t (n : Nat) : Bool :=
  decide (n ≤ 255)

/-- Modelled from the spec: `Platform::CopyString(dest, src)`, defined in
lib/support/CHIPMemString.h outside the translated file, copying into a `char` array of
`destSize` bytes; the spec calls the two names of a record bounded-length strings, so the
copy keeps at most `destSize - 1` characters. -/
def CopyString (destSize : Nat) (src : String) : String :=
  String.mk (src.data.take (destSize - 1))

/-- A `thread_dns_txt_entry_s` as filled in by `_AddSrpService`. -/
structure thread_dns_txt_entry_s where
  key : String
  value : List Nat
  value_len : Nat
  deriving DecidableEq

/-- The `for (auto & entry : aTxtEntries)` loop of `_AddSrpService`: every entry is written
through the raw pointer `ee`; the loop returns early (`none`) at the first entry whose
`mDataSize` does not fit a `uint8_t`. -/
def _AddSrpService.fillEntries :
    List TextEntry → List thread_dns_txt_entry_s → Option (List thread_dns_txt_entry_s)
  | [], written => some written
  | entry :: rest, written =>
    if CanCastTo_uint8_t entry.mDataSize then
      _AddSrpService.fillEntries rest
        (written ++ [{ key := entry.mKey, value := entry.mData, value_len := entry.mDataSize }])
    else none

/-- Value of `entries.size()` at the count check of `_AddSrpService`: the vector is default
constructed, `reserve` changes the capacity only, and the loop stores through
`entries.data()` without ever adding an element, so the size is still that of the empty
vector. -/
def _AddSrpService.entriesSize (_aTxtEntries : List TextEntry) : Nat :=
  ([] : List thread_dns_txt_entry_s).length

/-- Modelled from the spec: the record `service` pushed by `_AddSrpService`. The struct
declaration, with the initial value of `mValid`, is in ThreadStackManagerImpl.h outside the
translated file; the spec says a new record is appended with `valid = true`. -/
def _AddSrpService.newService (env : Env) (aInstanceName aName : String) (aPort : Nat) :
    SrpClientService :=
  { mInstanceName := CopyString env.sizeofInstanceName aInstanceName,
    mName := CopyString env.sizeofName aName,
    mPort := aPort,
    mValid := true }

/-- Method `ThreadStackManagerImpl::_AddSrpService(...)`. A `const char *` argument is `none`
when null. `aSubTypes`, `aLeaseInterval` and `aKeyLeaseInterval` are not used by the body. -/
def _AddSrpService (env : Env) (aInstanceName aName : Option String) (aPort : Nat)
    (aTxtEntries : List TextEntry) (w : World) : CHIP_ERROR × World :=
  if ¬ w.mgr.mIsInitialized then (.CHIP_ERROR_UNINITIALIZED, w)
  else
    match aInstanceName, aName with
    | none, _ => (.CHIP_ERROR_INVALID_ARGUMENT, w)
    | some _, none => (.CHIP_ERROR_INVALID_ARGUMENT, w)
    | some instanceName, some name =>
      match _AddSrpService.fillEntries aTxtEntries [] with
      | none => (.CHIP_ERROR_INVALID_ARGUMENT, w)
      | some _ =>
        let size := _AddSrpService.entriesSize aTxtEntries
        if ¬ CanCastTo_uint8_t size then (.CHIP_ERROR_INVALID_ARGUMENT, w)
        else
          let threadErr := w.nextStatus env
          let w1 := w.call
            (.thread_srp_client_register_service_full instanceName name aPort (size % 256))
          if ¬ (threadErr = .THREAD_ERROR_NONE ∨ threadErr = .THREAD_ERROR_ALREADY_DONE) then
            (.CHIP_ERROR_INTERNAL, w1)
          else
            (.CHIP_NO_ERROR,
              { w1 with mgr := { w1.mgr with mSrpClientServices :=
                  w1.mgr.mSrpClientServices ++
                    [_AddSrpService.newService env instanceName name aPort] } })

/-- Method `ThreadStackManagerImpl::_RemoveSrpService(aInstanceName, aName)`. -/
def _RemoveSrpService (env : Env) (aInstanceName aName : Option String) (w : World) :
    CHIP_ERROR × World :=
  if ¬ w.mgr.mIsInitialized then (.CHIP_ERROR_UNINITIALIZED, w)
  else
    match aInstanceName, aName with
    | none, _ => (.CHIP_ERROR_INVALID_ARGUMENT, w)
    | some _, none => (.CHIP_ERROR_INVALID_ARGUMENT, w)
    | some instanceName, some name =>
      let threadErr := w.nextStatus env
      let w1 := w.call (.thread_srp_client_remove_service instanceName name)
      if threadErr ≠ .THREAD_ERROR_NONE then (.CHIP_ERROR_INTERNAL, w1)
      else (.CHIP_NO_ERROR, w1)

/-- Method `ThreadStackManagerImpl::_InvalidateAllSrpServices()`. -/
def _InvalidateAllSrpServices (w : World) : CHIP_ERROR × World :=
  (.CHIP_NO_ERROR,
    { w with mgr := { w.mgr with mSrpClientServices :=
        w.mgr.mSrpClientServices.map (fun service => { service with mValid := false }) } })

/-- Store a new content of `mSrpClientServices`. -/
def World.setServices (w : World) (services : List SrpClientService) : World :=
  { w with mgr := { w.mgr with mSrpClientServices := services } }

/-- The iterator loop of `_RemoveInvalidSrpServices`: the first list holds the records the
iterator has passed and kept, the second the records from `it` to `end()`. `erase(it)`
leaves the vector as `before ++ rest`; `++it` moves one record to `before`. -/
def _RemoveInvalidSrpServices.loop (env : Env) :
    List SrpClientService → List SrpClientService → World → CHIP_ERROR × World
  | _, [], w => (.CHIP_NO_ERROR, w)
  | before, service :: rest, w =>
    if ¬ service.mValid then
      let r := _RemoveSrpService env (some service.mInstanceName) (some service.mName) w
      if r.1 ≠ .CHIP_NO_ERROR then r
      else _RemoveInvalidSrpServices.loop env before rest (r.2.setServices (before ++ rest))
    else _RemoveInvalidSrpServices.loop env (before ++ [service]) rest w

/-- Method `ThreadStackManagerImpl::_RemoveInvalidSrpServices()`. -/
def _RemoveInvalidSrpServices (env : Env) (w : World) : CHIP_ERROR × World :=
  _RemoveInvalidSrpServices.loop env [] w.mgr.mSrpClientServices w

/-! ## Specification-side descriptions -/

/-- The attached value the spec assigns to a role: false for disabled and detached, true for
every other role. -/
def specIsAttached (role : thread_device_role_e) : Bool :=
  decide (role ≠ .THREAD_DEVICE_ROLE_DISABLED ∧ role ≠ .THREAD_DEVICE_ROLE_DETACHED)

/-- The events the spec expects from one role notification when the stored attached flag
is `stored`: a connectivity-changed event on an edge only, then one role-state-changed
event. -/
def specRoleEvents (stored : Bool) (role : thread_device_role_e) : List ChipDeviceEvent :=
  (if specIsAttached role = stored then []
   else [.kThreadConnectivityChange
          (if specIsAttached role then .kConnectivity_Established
           else .kConnectivity_Lost)]) ++
  [.kThreadStateChange true]

/-- The events the spec expects from a run of role notifications. -/
def specRoleEventsOfRun : Bool → List thread_device_role_e → List ChipDeviceEvent
  | _, [] => []
  | stored, role :: rest =>
    specRoleEvents stored role ++ specRoleEventsOfRun (specIsAttached role) rest

/-- Whether an event is a connectivity-changed event. -/
def ChipDeviceEvent.isConnectivityChange : ChipDeviceEvent → Bool
  | .kThreadConnectivityChange _ => true
  | _ => false

/-- Whether an event is a role-state-changed event. -/
def ChipDeviceEvent.isStateChange : ChipDeviceEvent → Bool
  | .kThreadStateChange _ => true
  | _ => false

/-! ## Sample environments and states -/

/-- A sample environment around a given native oracle: SRP support compiled in, name arrays
of 17 and 14 bytes, a dataset being valid and commissioned when it is not empty. -/
def sampleEnv (status : Nat → thread_error_e) (deviceRole : Nat → thread_device_role_e) :
    Env :=
  { CHIP_DEVICE_CONFIG_ENABLE_THREAD_SRP_CLIENT := true,
    sizeofInstanceName := 17,
    sizeofName := 14,
    IsValid := fun bytes => !bytes.isEmpty,
    IsCommissioned := fun bytes => !bytes.isEmpty,
    Init := fun _ span => span,
    native := { status := status, deviceRole := deviceRole, datasetTlvs := fun _ => [] } }

/-- An initialized, unattached manager holding the given registry, with empty logs. -/
def sampleWorld (services : List SrpClientService) : World :=
  { mgr := { mIsAttached := false, mIsInitialized := true, mpConnectCallback := none,
             mDataset := [], mSrpClientServices := services },
    nativeCalls := [], postedEvents := [], scheduled := [], onResultLog := [] }

/-- An invalidated record of the registry. -/
def invalidRecord (instanceName : String) : SrpClientService :=
  { mInstanceName := instanceName, mName := "_ipp._tcp", mPort := 631, mValid := false }

/-- A native stack that always reports the disabled role and fails its third call only. -/
def envFailingThirdCall : Env :=
  sampleEnv (fun n => if n = 2 then .other (-1) else .THREAD_ERROR_NONE)
    (fun _ => .THREAD_DEVICE_ROLE_DISABLED)

/-- A native stack on which every call succeeds and the role is always disabled. -/
def envAllSuccess : Env :=
  sampleEnv (fun _ => .THREAD_ERROR_NONE) (fun _ => .THREAD_DEVICE_ROLE_DISABLED)

/-- Five invalidated records in an initialized manager. -/
def worldFiveInvalid : World :=
  sampleWorld [invalidRecord "a", invalidRecord "b", invalidRecord "c", invalidRecord "d",
    invalidRecord "e"]

/-! ## Reachable states -/

/-- States the manager can be in: the freshly constructed manager, followed by any sequence
of the operations of this file, of native role notifications (delivered only once
`_InitThreadStack` has registered the callback, that is on an initialized manager) and of
scheduler steps, each native call being answered by the oracle of `env`. -/
inductive Reachable (env : Env) : World → Prop where
  | fresh : Reachable env World.fresh
  | initThreadStack (w : World) : Reachable env w → Reachable env (_InitThreadStack env w).2
  | roleChanged (w : World) (role : thread_device_role_e) :
      Reachable env w → w.mgr.mIsInitialized = true →
      Reachable env (_ThreadDeviceRoleChangedCb env role w)
  | setThreadProvision (w : World) (netInfo : List Nat) :
      Reachable env w → Reachable env (_SetThreadProvision env netInfo w).2
  | getThreadProvision (w : World) (dataset : List Nat) :
      Reachable env w → Reachable env (_GetThreadProvision env dataset w).2.2
  | erasePersistentInfo (w : World) : Reachable env w → Reachable env (_ErasePersistentInfo w)
  | isThreadEnabled (w : World) : Reachable env w → Reachable env (_IsThreadEnabled env w).2
  | setThreadEnabled (w : World) (val : Bool) :
      Reachable env w → Reachable env (_SetThreadEnabled env val w).2
  | attachToThreadNetwork (w : World) (dataset : List Nat) (callback : Option Nat) :
      Reachable env w → Reachable env (_AttachToThreadNetwork env dataset callback w).2
  | scheduledWork (w : World) : Reachable env w → Reachable env (runNextScheduled w)
  | addSrpService (w : World) (aInstanceName aName : Option String) (aPort : Nat)
      (aTxtEntries : List TextEntry) :
      Reachable env w →
      Reachable env (_AddSrpService env aInstanceName aName aPort aTxtEntries w).2
  | removeSrpService (w : World) (aInstanceName aName : Option String) :
      Reachable env w → Reachable env (_RemoveSrpService env aInstanceName aName w).2
  | invalidateAllSrpServices (w : World) :
      Reachable env w → Reachable env (_InvalidateAllSrpServices w).2
  | removeInvalidSrpServices (w : World) :
      Reachable env w → Reachable env (_RemoveInvalidSrpServices env w).2

/-- The manager after a successful `_InitThreadStack` and the registration of the service
`("printer1", "_ipp._tcp", 631)` without text entries, on a native stack where every call
succeeds. -/
def worldWithPrinter : World :=
  (_AddSrpService envAllSuccess (some "printer1") (some "_ipp._tcp") 631 []
    (_InitThreadStack envAllSuccess World.fresh).2).2

/-- Sample input: 256 text entries, each with an empty payload. -/
def textEntries256 : List TextEntry :=
  List.replicate 256 { mKey := "k", mData := [], mDataSize := 0 }

/-- Whether a scheduled report invokes a pending callback when it runs: the first report
of an attempt only after a failed native attach, the second one always. -/
def ScheduledLambda.fires : ScheduledLambda → Bool
  | .attachReport threadErr => decide (threadErr ≠ .THREAD_ERROR_NONE)
  | .startReport _ => true

/-- How often `OnResult` has been invoked on the callback `cb`. -/
def World.invocations (w : World) (cb : Nat) : Nat :=
  (w.onResultLog.filter (fun entry => entry.1 == cb)).length

/-- The native calls of `later` are those of `earlier` followed by calls none of which is
`thread_network_attach`. -/
def ExtendsWithoutAttach (earlier later : World) : Prop :=
  ∃ calls : List NativeCall,
    later.nativeCalls = earlier.nativeCalls ++ calls ∧ NativeCall.thread_network_attach ∉ calls

/-- A native stack on which every call succeeds and the role is always reported as child. -/
def envAlwaysChild : Env :=
  sampleEnv (fun _ => .THREAD_ERROR_NONE) (fun _ => .THREAD_DEVICE_ROLE_CHILD)

/-- A native stack reporting the router role on which only the sixth call fails; during
`_InitThreadStack` that call is the registration of the role-changed callback. -/
def envCallbackRegistrationFails : Env :=
  sampleEnv (fun n => if n = 5 then .other (-1) else .THREAD_ERROR_NONE)
    (fun _ => .THREAD_DEVICE_ROLE_ROUTER)

/-- The native calls the SRP block of the role-changed handler makes for a role. -/
def srpCallsFor (role : thread_device_role_e) : List NativeCall :=
  if role = .THREAD_DEVICE_ROLE_DISABLED then [.thread_srp_client_start]
  else if role = .THREAD_DEVICE_ROLE_ROUTER ∨ role = .THREAD_DEVICE_ROLE_CHILD then
    [.thread_srp_server_stop, .thread_srp_client_start]
  else if role = .THREAD_DEVICE_ROLE_LEADER then
    [.thread_srp_client_stop, .thread_srp_server_start]
  else []

/-! ## Further sample environments and descriptions of scheduled reports -/

/-- A native stack that always reports the disabled role and fails its call number `k`
(counted from 0) only. -/
def envDisabledFailingAt (k : Nat) : Env :=
  sampleEnv (fun n => if n = k then .other (-1) else .THREAD_ERROR_NONE)
    (fun _ => .THREAD_DEVICE_ROLE_DISABLED)

/-- The status a scheduled report passes to `OnResult` when it fires: the first report of
an attempt reports `kUnknownError`, the second one success or `kUnknownError` by the
result of the native start. -/
def ScheduledLambda.reportedStatus : ScheduledLambda → Status
  | .attachReport _ => .kUnknownError
  | .startReport threadErr =>
    if threadErr = .THREAD_ERROR_NONE then .kSuccess else .kUnknownError

/-- What running a queue adds to the `OnResult` log when the callback `cb` is pending: one
invocation, by the first report of the queue that fires, or nothing when none fires. -/
def expectedReports (cb : Nat) (queue : List ScheduledLambda) : List (Nat × Status) :=
  match queue.find? ScheduledLambda.fires with
  | some l => [(cb, l.reportedStatus)]
  | none => []

/-- A native stack that always reports the child role and fails only its calls number 0
and 9; in two consecutive `_AttachToThreadNetwork` calls on a manager without earlier native
calls these are the first role query of each call, so no `thread_stop` is issued. -/
def envChildFirstQueryFails : Env :=
  sampleEnv (fun n => if n = 0 ∨ n = 9 then .other (-1) else .THREAD_ERROR_NONE)
    (fun _ => .THREAD_DEVICE_ROLE_CHILD)

/-! # Theorems -/

/-! ## Role notifications -/

theorem handler_mIsAttached (env : Env) (role : thread_device_role_e) (w : World) :
    (ThreadDeviceRoleChangedHandler env role w).mgr.mIsAttached = specIsAttached role := by
  cases role <;>
    simp [ThreadDeviceRoleChangedHandler, specIsAttached, srpRoleSideEffects,
      World.PostEventOrDie, World.call] <;>
    split <;> simp

theorem handler_postedEvents (env : Env) (role : thread_device_role_e) (w : World) :
    (ThreadDeviceRoleChangedHandler env role w).postedEvents
      = w.postedEvents ++ specRoleEvents w.mgr.mIsAttached role := by
  cases role <;> cases h : w.mgr.mIsAttached <;>
    cases hs : env.CHIP_DEVICE_CONFIG_ENABLE_THREAD_SRP_CLIENT <;>
    simp [ThreadDeviceRoleChangedHandler, specIsAttached, specRoleEvents, srpRoleSideEffects,
      World.PostEventOrDie, World.call, h, hs]

theorem roleNotifications_postedEvents (env : Env) (roles : List thread_device_role_e) :
    ∀ w : World, (roleNotifications env roles w).postedEvents
      = w.postedEvents ++ specRoleEventsOfRun w.mgr.mIsAttached roles := by
  induction roles with
  | nil => intro w; simp [roleNotifications, specRoleEventsOfRun]
  | cons role rest ih =>
    intro w
    have step := ih (_ThreadDeviceRoleChangedCb env role w)
    simp only [roleNotifications, List.foldl_cons] at step ⊢
    rw [step]
    simp [_ThreadDeviceRoleChangedCb, handler_postedEvents, handler_mIsAttached,
      specRoleEventsOfRun]

/-- C1: one call of `ThreadDeviceRoleChangedHandler` posts, after the events already posted,
a connectivity-changed event exactly when the attached value of the role differs from the
stored flag (Established for true, Lost for false) and then exactly one role-state-changed
event; a run of native role notifications posts exactly these events call after call. -/
theorem C1_role_notification_events (env : Env) (w : World) :
    (∀ role : thread_device_role_e,
      ∃ posted : List ChipDeviceEvent,
        (ThreadDeviceRoleChangedHandler env role w).postedEvents = w.postedEvents ++ posted ∧
        ((∃ r, ChipDeviceEvent.kThreadConnectivityChange r ∈ posted) ↔
          ((role != .THREAD_DEVICE_ROLE_DISABLED) && (role != .THREAD_DEVICE_ROLE_DETACHED))
            ≠ w.mgr.mIsAttached) ∧
        (∀ r, ChipDeviceEvent.kThreadConnectivityChange r ∈ posted →
          r = (if (role != .THREAD_DEVICE_ROLE_DISABLED) && (role != .THREAD_DEVICE_ROLE_DETACHED)
               then .kConnectivity_Established else .kConnectivity_Lost)) ∧
        (posted.filter ChipDeviceEvent.isConnectivityChange).length ≤ 1 ∧
        posted.filter ChipDeviceEvent.isStateChange = [.kThreadStateChange true] ∧
        posted = specRoleEvents w.mgr.mIsAttached role) ∧
    (∀ roles : List thread_device_role_e,
      (roleNotifications env roles w).postedEvents
        = w.postedEvents ++ specRoleEventsOfRun w.mgr.mIsAttached roles) := by
  refine ⟨?_, fun roles => roleNotifications_postedEvents env roles w⟩
  intro role
  refine ⟨specRoleEvents w.mgr.mIsAttached role, handler_postedEvents env role w, ?_⟩
  cases role <;> cases h : w.mgr.mIsAttached <;>
    simp [specRoleEvents, specIsAttached, ChipDeviceEvent.isConnectivityChange,
      ChipDeviceEvent.isStateChange]

/-- C2: after `ThreadDeviceRoleChangedHandler(role)`, from any prior state,
`_IsThreadAttached()` is false exactly when the role is DISABLED or DETACHED and true for
every other role, the unrecognised values included. -/
theorem C2_attached_after_role_notification (env : Env) (w : World)
    (role : thread_device_role_e) :
    (_IsThreadAttached (ThreadDeviceRoleChangedHandler env role w) = false ↔
      (role = .THREAD_DEVICE_ROLE_DISABLED ∨ role = .THREAD_DEVICE_ROLE_DETACHED)) ∧
    (_IsThreadAttached (ThreadDeviceRoleChangedHandler env role w) = true ↔
      (role ≠ .THREAD_DEVICE_ROLE_DISABLED ∧ role ≠ .THREAD_DEVICE_ROLE_DETACHED)) := by
  rw [_IsThreadAttached, handler_mIsAttached]
  cases role <;> simp [specIsAttached]

/-! ## Service discovery registry: removal -/

theorem removeSrpService_success (env : Env) (instanceName name : String) (w : World)
    (hinit : w.mgr.mIsInitialized = true)
    (hok : env.native.status w.nativeCalls.length = .THREAD_ERROR_NONE) :
    _RemoveSrpService env (some instanceName) (some name) w
      = (.CHIP_NO_ERROR, w.call (.thread_srp_client_remove_service instanceName name)) := by
  simp [_RemoveSrpService, hinit, World.nextStatus, hok]

theorem removeSrpService_failure (env : Env) (instanceName name : String) (w : World)
    (hinit : w.mgr.mIsInitialized = true)
    (hfail : env.native.status w.nativeCalls.length ≠ .THREAD_ERROR_NONE) :
    _RemoveSrpService env (some instanceName) (some name) w
      = (.CHIP_ERROR_INTERNAL, w.call (.thread_srp_client_remove_service instanceName name)) := by
  simp [_RemoveSrpService, hinit, World.nextStatus, hfail]

theorem removeLoop_fails_at (env : Env) (pre : List SrpClientService) :
    ∀ (before post : List SrpClientService) (r : SrpClientService) (w : World),
      w.mgr.mIsInitialized = true →
      w.mgr.mSrpClientServices = before ++ pre ++ r :: post →
      r.mValid = false →
      (∀ i, i < (pre.filter (fun s => !s.mValid)).length →
        env.native.status (w.nativeCalls.length + i) = .THREAD_ERROR_NONE) →
      env.native.status (w.nativeCalls.length + (pre.filter (fun s => !s.mValid)).length)
        ≠ .THREAD_ERROR_NONE →
      (_RemoveInvalidSrpServices.loop env before (pre ++ r :: post) w).1
          = .CHIP_ERROR_INTERNAL ∧
      (_RemoveInvalidSrpServices.loop env before (pre ++ r :: post) w).2.mgr.mSrpClientServices
          = before ++ pre.filter (fun s => s.mValid) ++ r :: post ∧
      (_RemoveInvalidSrpServices.loop env before (pre ++ r :: post) w).2.nativeCalls
          = w.nativeCalls ++
            ((pre.filter (fun s => !s.mValid)) ++ [r]).map
              (fun s => NativeCall.thread_srp_client_remove_service s.mInstanceName s.mName) := by
  induction pre with
  | nil =>
    intro before post r w hinit hreg hr _ hfail
    simp only [List.filter_nil, List.length_nil, Nat.add_zero] at hfail
    simp [_RemoveInvalidSrpServices.loop, hr,
      removeSrpService_failure env _ _ w hinit hfail, World.call, hreg]
  | cons s pre ih =>
    intro before post r w hinit hreg hr hok hfail
    cases hs : s.mValid with
    | true =>
      simp only [List.filter_cons, hs, Bool.not_true] at hok hfail
      have h := ih (before ++ [s]) post r w hinit (by simp [hreg]) hr (by simpa using hok)
        (by simpa using hfail)
      simpa [_RemoveInvalidSrpServices.loop, hs] using h
    | false =>
      simp only [List.filter_cons, hs, Bool.not_false, List.length_cons] at hok hfail
      have h0 : env.native.status w.nativeCalls.length = .THREAD_ERROR_NONE := by
        simpa using hok 0 (by simp)
      have h := ih before post r
        ((w.call (.thread_srp_client_remove_service s.mInstanceName s.mName)).setServices
          (before ++ (pre ++ r :: post)))
        (by simpa [World.setServices, World.call] using hinit)
        (by simp [World.setServices])
        hr
        (by
          intro i hi
          have := hok (i + 1) (by simpa using hi)
          simpa [World.setServices, World.call, Nat.add_assoc, Nat.add_comm 1 i] using this)
        (by
          simpa [World.setServices, World.call, Nat.add_assoc,
            Nat.add_comm 1 _] using hfail)
      simpa [_RemoveInvalidSrpServices.loop, hs,
        removeSrpService_success env _ _ w hinit h0, World.setServices, World.call] using h

theorem removeLoop_all_success (env : Env) (items : List SrpClientService) :
    ∀ (before : List SrpClientService) (w : World),
      w.mgr.mIsInitialized = true →
      w.mgr.mSrpClientServices = before ++ items →
      (∀ i, i < (items.filter (fun s => !s.mValid)).length →
        env.native.status (w.nativeCalls.length + i) = .THREAD_ERROR_NONE) →
      (_RemoveInvalidSrpServices.loop env before items w).1 = .CHIP_NO_ERROR ∧
      (_RemoveInvalidSrpServices.loop env before items w).2.mgr.mSrpClientServices
          = before ++ items.filter (fun s => s.mValid) ∧
      (_RemoveInvalidSrpServices.loop env before items w).2.nativeCalls
          = w.nativeCalls ++
            (items.filter (fun s => !s.mValid)).map
              (fun s => NativeCall.thread_srp_client_remove_service s.mInstanceName s.mName) := by
  induction items with
  | nil =>
    intro before w _ hreg _
    simp [_RemoveInvalidSrpServices.loop, hreg]
  | cons s items ih =>
    intro before w hinit hreg hok
    cases hs : s.mValid with
    | true =>
      simp only [List.filter_cons, hs, Bool.not_true] at hok
      have h := ih (before ++ [s]) w hinit (by simp [hreg]) (by simpa using hok)
      simpa [_RemoveInvalidSrpServices.loop, hs] using h
    | false =>
      simp only [List.filter_cons, hs, Bool.not_false, List.length_cons] at hok
      have h0 : env.native.status w.nativeCalls.length = .THREAD_ERROR_NONE := by
        simpa using hok 0 (by simp)
      have h := ih before
        ((w.call (.thread_srp_client_remove_service s.mInstanceName s.mName)).setServices
          (before ++ items))
        (by simpa [World.setServices, World.call] using hinit)
        (by simp [World.setServices])
        (by
          intro i hi
          have := hok (i + 1) (by simpa using hi)
          simpa [World.setServices, World.call, Nat.add_assoc, Nat.add_comm 1 i] using this)
      simpa [_RemoveInvalidSrpServices.loop, hs,
        removeSrpService_success env _ _ w hinit h0, World.setServices, World.call] using h

/-- C3: on an initialized manager whose registry is `pre ++ r :: post` with `r` invalid, if
the native removal succeeds for every invalid record of `pre` and fails for `r`, then
`_RemoveInvalidSrpServices` returns that failure (`CHIP_ERROR_INTERNAL` from
`_RemoveSrpService`), and the registry afterwards is the valid records of `pre`, then `r`,
then all of `post`, in their original order; the native stack was asked to remove the
invalid records of `pre` and `r`, and nothing else. -/
theorem C3_prune_stops_at_first_failure (env : Env) (w : World)
    (pre post : List SrpClientService) (r : SrpClientService)
    (hinit : w.mgr.mIsInitialized = true)
    (hreg : w.mgr.mSrpClientServices = pre ++ r :: post)
    (hr : r.mValid = false)
    (hok : ∀ i, i < (pre.filter (fun s => !s.mValid)).length →
      env.native.status (w.nativeCalls.length + i) = .THREAD_ERROR_NONE)
    (hfail : env.native.status (w.nativeCalls.length + (pre.filter (fun s => !s.mValid)).length)
      ≠ .THREAD_ERROR_NONE) :
    (_RemoveInvalidSrpServices env w).1 = .CHIP_ERROR_INTERNAL ∧
    (_RemoveInvalidSrpServices env w).2.mgr.mSrpClientServices
      = pre.filter (fun s => s.mValid) ++ r :: post ∧
    (_RemoveInvalidSrpServices env w).2.nativeCalls
      = w.nativeCalls ++
        ((pre.filter (fun s => !s.mValid)) ++ [r]).map
          (fun s => NativeCall.thread_srp_client_remove_service s.mInstanceName s.mName) := by
  have h := removeLoop_fails_at env pre [] post r w hinit (by simpa using hreg) hr hok hfail
  simpa [_RemoveInvalidSrpServices, hreg] using h

/-- Witness of C3: five invalid records and a native failure on the third removal; the call
reports the failure and exactly the last three records remain. -/
theorem C3_prune_stops_at_first_failure_witness :
    (_RemoveInvalidSrpServices envFailingThirdCall worldFiveInvalid).1 = .CHIP_ERROR_INTERNAL ∧
    (_RemoveInvalidSrpServices envFailingThirdCall worldFiveInvalid).2.mgr.mSrpClientServices
      = [invalidRecord "c", invalidRecord "d", invalidRecord "e"] := by
  have h := C3_prune_stops_at_first_failure envFailingThirdCall worldFiveInvalid
    [invalidRecord "a", invalidRecord "b"] [invalidRecord "d", invalidRecord "e"]
    (invalidRecord "c") rfl rfl rfl
    (by
      intro i hi
      have hi2 : i < 2 := by simpa [invalidRecord] using hi
      have : i ≠ 2 := by omega
      simp [envFailingThirdCall, sampleEnv, worldFiveInvalid, sampleWorld, this])
    (by simp [envFailingThirdCall, sampleEnv, worldFiveInvalid, sampleWorld, invalidRecord])
  exact ⟨h.1, by simpa [invalidRecord] using h.2.1⟩

/-! ## Frame properties: what each operation leaves alone -/

theorem srpRoleSideEffects_mgr (role : thread_device_role_e) (w : World) :
    (srpRoleSideEffects role w).mgr = w.mgr := by
  unfold srpRoleSideEffects
  split_ifs <;> rfl

theorem srpRoleSideEffects_scheduled (role : thread_device_role_e) (w : World) :
    (srpRoleSideEffects role w).scheduled = w.scheduled := by
  unfold srpRoleSideEffects
  split_ifs <;> rfl

theorem srpRoleSideEffects_onResultLog (role : thread_device_role_e) (w : World) :
    (srpRoleSideEffects role w).onResultLog = w.onResultLog := by
  unfold srpRoleSideEffects
  split_ifs <;> rfl

theorem handler_mgr (env : Env) (role : thread_device_role_e) (w : World) :
    (ThreadDeviceRoleChangedHandler env role w).mgr
      = { w.mgr with mIsAttached := specIsAttached role } := by
  have hs : specIsAttached role
      = ((role != .THREAD_DEVICE_ROLE_DISABLED) && (role != .THREAD_DEVICE_ROLE_DETACHED)) := by
    cases role <;> simp [specIsAttached]
  rw [hs]
  unfold ThreadDeviceRoleChangedHandler
  simp only [World.PostEventOrDie]
  split_ifs <;> simp [srpRoleSideEffects_mgr]

theorem handler_scheduled (env : Env) (role : thread_device_role_e) (w : World) :
    (ThreadDeviceRoleChangedHandler env role w).scheduled = w.scheduled := by
  unfold ThreadDeviceRoleChangedHandler
  simp only [World.PostEventOrDie]
  split_ifs <;> simp [srpRoleSideEffects_scheduled]

theorem handler_onResultLog (env : Env) (role : thread_device_role_e) (w : World) :
    (ThreadDeviceRoleChangedHandler env role w).onResultLog = w.onResultLog := by
  unfold ThreadDeviceRoleChangedHandler
  simp only [World.PostEventOrDie]
  split_ifs <;> simp [srpRoleSideEffects_onResultLog]

theorem initThreadStack_frame (env : Env) (w : World) :
    (_InitThreadStack env w).2.mgr.mSrpClientServices = w.mgr.mSrpClientServices ∧
    (w.mgr.mIsInitialized = true → (_InitThreadStack env w).2.mgr.mIsInitialized = true) := by
  simp only [_InitThreadStack, _InitThreadStack.initExit]
  split_ifs <;> simp_all [handler_mgr, World.call]

theorem setThreadProvision_frame (env : Env) (netInfo : List Nat) (w : World) :
    (_SetThreadProvision env netInfo w).2.mgr = w.mgr ∧
    (_SetThreadProvision env netInfo w).2.scheduled = w.scheduled ∧
    (_SetThreadProvision env netInfo w).2.onResultLog = w.onResultLog := by
  simp only [_SetThreadProvision]
  split_ifs <;> simp [World.call, World.PostEventOrDie]

theorem getThreadProvision_frame (env : Env) (dataset : List Nat) (w : World) :
    (_GetThreadProvision env dataset w).2.2.mgr.mSrpClientServices = w.mgr.mSrpClientServices ∧
    (_GetThreadProvision env dataset w).2.2.mgr.mIsInitialized = w.mgr.mIsInitialized := by
  simp only [_GetThreadProvision]
  split_ifs <;> simp [World.call]

theorem isThreadEnabled_frame (env : Env) (w : World) :
    (_IsThreadEnabled env w).2.mgr = w.mgr ∧
    (_IsThreadEnabled env w).2.scheduled = w.scheduled ∧
    (_IsThreadEnabled env w).2.onResultLog = w.onResultLog ∧
    (_IsThreadEnabled env w).2.postedEvents = w.postedEvents := by
  simp only [_IsThreadEnabled]
  split_ifs <;> simp [World.call]

theorem requery_frame (env : Env) (w : World) :
    (_SetThreadEnabled.requery env w).2.mgr.mSrpClientServices = w.mgr.mSrpClientServices ∧
    (_SetThreadEnabled.requery env w).2.mgr.mIsInitialized = w.mgr.mIsInitialized ∧
    (_SetThreadEnabled.requery env w).2.mgr.mpConnectCallback = w.mgr.mpConnectCallback ∧
    (_SetThreadEnabled.requery env w).2.mgr.mDataset = w.mgr.mDataset ∧
    (_SetThreadEnabled.requery env w).2.scheduled = w.scheduled ∧
    (_SetThreadEnabled.requery env w).2.onResultLog = w.onResultLog := by
  simp only [_SetThreadEnabled.requery]
  split_ifs <;> simp [World.call, handler_mgr, handler_scheduled, handler_onResultLog]

theorem setThreadEnabled_frame (env : Env) (val : Bool) (w : World) :
    (_SetThreadEnabled env val w).2.mgr.mSrpClientServices = w.mgr.mSrpClientServices ∧
    (_SetThreadEnabled env val w).2.mgr.mIsInitialized = w.mgr.mIsInitialized ∧
    (_SetThreadEnabled env val w).2.mgr.mpConnectCallback = w.mgr.mpConnectCallback ∧
    (_SetThreadEnabled env val w).2.mgr.mDataset = w.mgr.mDataset ∧
    (_SetThreadEnabled env val w).2.onResultLog = w.onResultLog := by
  simp only [_SetThreadEnabled, _SetThreadEnabled.enable, _SetThreadEnabled.disable]
  split_ifs <;>
    simp [World.call, World.ScheduleLambda, requery_frame, isThreadEnabled_frame]

theorem attachToThreadNetwork_frame (env : Env) (dataset : List Nat) (callback : Option Nat)
    (w : World) :
    (_AttachToThreadNetwork env dataset callback w).2.mgr.mSrpClientServices
      = w.mgr.mSrpClientServices ∧
    (_AttachToThreadNetwork env dataset callback w).2.mgr.mIsInitialized
      = w.mgr.mIsInitialized ∧
    (_AttachToThreadNetwork env dataset callback w).2.onResultLog = w.onResultLog := by
  simp only [_AttachToThreadNetwork]
  split_ifs <;>
    simp [setThreadEnabled_frame, setThreadProvision_frame]

theorem lambda_run_frame (l : ScheduledLambda) (w : World) :
    (l.run w).mgr.mSrpClientServices = w.mgr.mSrpClientServices ∧
    (l.run w).mgr.mIsInitialized = w.mgr.mIsInitialized ∧
    (l.run w).scheduled = w.scheduled := by
  cases l <;> simp only [ScheduledLambda.run] <;> split <;>
    (try split_ifs) <;> simp [World.reportAndClear]

theorem runNextScheduled_frame (w : World) :
    (runNextScheduled w).mgr.mSrpClientServices = w.mgr.mSrpClientServices ∧
    (runNextScheduled w).mgr.mIsInitialized = w.mgr.mIsInitialized := by
  unfold runNextScheduled
  split
  · simp
  · simp [lambda_run_frame]

theorem removeSrpService_mgr (env : Env) (aInstanceName aName : Option String) (w : World) :
    (_RemoveSrpService env aInstanceName aName w).2.mgr = w.mgr := by
  cases aInstanceName <;> cases aName <;> simp only [_RemoveSrpService] <;>
    split_ifs <;> simp [World.call]

theorem addSrpService_frame (env : Env) (aInstanceName aName : Option String) (aPort : Nat)
    (aTxtEntries : List TextEntry) (w : World) :
    (_AddSrpService env aInstanceName aName aPort aTxtEntries w).2.mgr.mIsInitialized
      = w.mgr.mIsInitialized ∧
    (w.mgr.mIsInitialized = false →
      (_AddSrpService env aInstanceName aName aPort aTxtEntries w).2 = w) := by
  cases aInstanceName <;> cases aName <;>
    cases hfill : _AddSrpService.fillEntries aTxtEntries [] <;>
    simp only [_AddSrpService, hfill] <;>
    split_ifs <;> simp_all [World.call]

theorem removeLoop_mIsInitialized (env : Env) (items : List SrpClientService) :
    ∀ (before : List SrpClientService) (w : World),
      (_RemoveInvalidSrpServices.loop env before items w).2.mgr.mIsInitialized
        = w.mgr.mIsInitialized := by
  induction items with
  | nil => intro before w; simp [_RemoveInvalidSrpServices.loop]
  | cons s items ih =>
    intro before w
    cases hs : s.mValid with
    | true => simpa [_RemoveInvalidSrpServices.loop, hs] using ih _ _
    | false =>
      simp only [_RemoveInvalidSrpServices.loop, hs]
      split_ifs <;> simp [ih, World.setServices, removeSrpService_mgr]

/-- Records are only ever stored by an initialized manager. -/
theorem reachable_registry_needs_init (env : Env) (w : World) (h : Reachable env w) :
    w.mgr.mSrpClientServices ≠ [] → w.mgr.mIsInitialized = true := by
  induction h with
  | fresh => simp [World.fresh]
  | initThreadStack w _ ih =>
    intro hne
    rw [(initThreadStack_frame env w).1] at hne
    exact (initThreadStack_frame env w).2 (ih hne)
  | roleChanged w role _ hinit _ =>
    intro _
    simpa [_ThreadDeviceRoleChangedCb, handler_mgr] using hinit
  | setThreadProvision w netInfo _ ih =>
    simpa [setThreadProvision_frame] using ih
  | getThreadProvision w dataset _ ih =>
    simpa [getThreadProvision_frame] using ih
  | erasePersistentInfo w _ ih =>
    simpa [_ErasePersistentInfo] using ih
  | isThreadEnabled w _ ih =>
    simpa [isThreadEnabled_frame] using ih
  | setThreadEnabled w val _ ih =>
    simpa [setThreadEnabled_frame] using ih
  | attachToThreadNetwork w dataset callback _ ih =>
    simpa [attachToThreadNetwork_frame] using ih
  | scheduledWork w _ ih =>
    simpa [runNextScheduled_frame] using ih
  | addSrpService w aInstanceName aName aPort aTxtEntries _ ih =>
    intro hne
    rw [(addSrpService_frame env aInstanceName aName aPort aTxtEntries w).1]
    cases hinit : w.mgr.mIsInitialized with
    | true => rfl
    | false =>
      rw [(addSrpService_frame env aInstanceName aName aPort aTxtEntries w).2 hinit] at hne
      simpa [hinit] using ih hne
  | removeSrpService w aInstanceName aName _ ih =>
    simpa [removeSrpService_mgr] using ih
  | invalidateAllSrpServices w _ ih =>
    simpa [_InvalidateAllSrpServices] using ih
  | removeInvalidSrpServices w _ ih =>
    intro hne
    rw [_RemoveInvalidSrpServices, removeLoop_mIsInitialized]
    apply ih
    intro hnil
    apply hne
    simp [_RemoveInvalidSrpServices, hnil, _RemoveInvalidSrpServices.loop]

/-! ## Service discovery registry: invalidate, then prune -/

/-- C4: on every manager state that is reachable (or merely initialized), with any registry
content, `_InvalidateAllSrpServices` followed by `_RemoveInvalidSrpServices`, the native
stack answering success to each of the removal calls, returns success twice and leaves the
registry empty; the native stack was asked to remove every record, in order. -/
theorem C4_invalidate_then_prune_empties (env : Env) (w : World)
    (hstate : Reachable env w ∨ w.mgr.mIsInitialized = true)
    (hok : ∀ i, i < w.mgr.mSrpClientServices.length →
      env.native.status (w.nativeCalls.length + i) = .THREAD_ERROR_NONE) :
    (_InvalidateAllSrpServices w).1 = .CHIP_NO_ERROR ∧
    (_RemoveInvalidSrpServices env (_InvalidateAllSrpServices w).2).1 = .CHIP_NO_ERROR ∧
    (_RemoveInvalidSrpServices env (_InvalidateAllSrpServices w).2).2.mgr.mSrpClientServices
      = [] ∧
    (_RemoveInvalidSrpServices env (_InvalidateAllSrpServices w).2).2.nativeCalls
      = w.nativeCalls ++ w.mgr.mSrpClientServices.map
          (fun s => NativeCall.thread_srp_client_remove_service s.mInstanceName s.mName) := by
  have hcases : w.mgr.mSrpClientServices = [] ∨ w.mgr.mIsInitialized = true := by
    rcases hstate with hreach | hinit
    · by_cases hnil : w.mgr.mSrpClientServices = []
      · exact Or.inl hnil
      · exact Or.inr (reachable_registry_needs_init env w hreach hnil)
    · exact Or.inr hinit
  rcases hcases with hnil | hinit
  · simp [_InvalidateAllSrpServices, _RemoveInvalidSrpServices, hnil,
      _RemoveInvalidSrpServices.loop]
  · have hfilter : ∀ l : List SrpClientService,
        (l.map (fun service => { service with mValid := false })).filter (fun s => !s.mValid)
          = l.map (fun service => { service with mValid := false }) := by
      intro l
      simp [List.filter_eq_self]
    have hnone : ∀ l : List SrpClientService,
        (l.map (fun service => { service with mValid := false })).filter (fun s => s.mValid)
          = [] := by
      intro l
      simp [List.filter_eq_nil_iff]
    have h := removeLoop_all_success env
      (w.mgr.mSrpClientServices.map (fun service => { service with mValid := false })) []
      (_InvalidateAllSrpServices w).2
      (by simpa [_InvalidateAllSrpServices] using hinit)
      (by simp [_InvalidateAllSrpServices])
      (by
        intro i hi
        rw [hfilter] at hi
        simpa [_InvalidateAllSrpServices] using hok i (by simpa using hi))
    rw [hfilter, hnone] at h
    refine ⟨rfl, ?_, ?_, ?_⟩
    · simpa [_RemoveInvalidSrpServices, _InvalidateAllSrpServices] using h.1
    · simpa [_RemoveInvalidSrpServices, _InvalidateAllSrpServices] using h.2.1
    · simpa [_RemoveInvalidSrpServices, _InvalidateAllSrpServices, Function.comp_def]
        using h.2.2

/-- Witness of C4: the service `("printer1", "_ipp._tcp", 631)` is registered on a freshly
initialized manager, giving one valid record; invalidating and pruning with a native stack
that always succeeds leaves zero records. -/
theorem C4_invalidate_then_prune_empties_witness :
    worldWithPrinter.mgr.mSrpClientServices
      = [{ mInstanceName := "printer1", mName := "_ipp._tcp", mPort := 631, mValid := true }] ∧
    (_RemoveInvalidSrpServices envAllSuccess
      (_InvalidateAllSrpServices worldWithPrinter).2).1 = .CHIP_NO_ERROR ∧
    (_RemoveInvalidSrpServices envAllSuccess
      (_InvalidateAllSrpServices worldWithPrinter).2).2.mgr.mSrpClientServices = [] := by
  have h := C4_invalidate_then_prune_empties envAllSuccess worldWithPrinter
    (Or.inl (Reachable.addSrpService _ _ _ _ _
      (Reachable.initThreadStack _ Reachable.fresh)))
    (by intro i _; rfl)
  exact ⟨by decide, h.2.1, h.2.2.1⟩

/-! ## Service discovery registry: registration -/

theorem fillEntries_eq_some (entries : List TextEntry) :
    ∀ written : List thread_dns_txt_entry_s,
      (∀ e ∈ entries, e.mDataSize ≤ 255) →
      _AddSrpService.fillEntries entries written
        = some (written ++ entries.map
            (fun e => { key := e.mKey, value := e.mData, value_len := e.mDataSize })) := by
  induction entries with
  | nil => intro written _; simp [_AddSrpService.fillEntries]
  | cons e rest ih =>
    intro written h
    have he : e.mDataSize ≤ 255 := h e (by simp)
    have hrest : ∀ x ∈ rest, x.mDataSize ≤ 255 := fun x hx => h x (by simp [hx])
    simp [_AddSrpService.fillEntries, CanCastTo_uint8_t, he, ih _ hrest]

theorem fillEntries_eq_none (entries : List TextEntry) :
    ∀ written : List thread_dns_txt_entry_s,
      (∃ e ∈ entries, 255 < e.mDataSize) →
      _AddSrpService.fillEntries entries written = none := by
  induction entries with
  | nil => intro written h; simp at h
  | cons e rest ih =>
    intro written h
    by_cases he : e.mDataSize ≤ 255
    · have hrest : ∃ x ∈ rest, 255 < x.mDataSize := by
        rcases h with ⟨x, hx, hlt⟩
        rcases List.mem_cons.mp hx with rfl | hx
        · omega
        · exact ⟨x, hx, hlt⟩
      simp [_AddSrpService.fillEntries, CanCastTo_uint8_t, he, ih _ hrest]
    · simp [_AddSrpService.fillEntries, CanCastTo_uint8_t, he]

/-- With non-null names and every text entry within the one-byte bound, an initialized
manager always reaches the native registration, whatever the number of entries, and passes
the entry count 0. -/
theorem addSrpService_reaches_native (env : Env) (w : World) (instanceName name : String)
    (aPort : Nat) (aTxtEntries : List TextEntry)
    (hinit : w.mgr.mIsInitialized = true)
    (hsizes : ∀ e ∈ aTxtEntries, e.mDataSize ≤ 255) :
    _AddSrpService env (some instanceName) (some name) aPort aTxtEntries w
      = if env.native.status w.nativeCalls.length = .THREAD_ERROR_NONE ∨
            env.native.status w.nativeCalls.length = .THREAD_ERROR_ALREADY_DONE then
          (.CHIP_NO_ERROR,
            (w.call (.thread_srp_client_register_service_full instanceName name aPort 0)).setServices
              (w.mgr.mSrpClientServices ++
                [_AddSrpService.newService env instanceName name aPort]))
        else
          (.CHIP_ERROR_INTERNAL,
            w.call (.thread_srp_client_register_service_full instanceName name aPort 0)) := by
  simp only [_AddSrpService, fillEntries_eq_some aTxtEntries [] hsizes]
  split_ifs <;>
    simp_all [_AddSrpService.entriesSize, CanCastTo_uint8_t, World.nextStatus, World.call,
      World.setServices]

/-- C5 (code evaluated at the failing input): with 256 text entries, each of data size 0,
non-null names, an initialized manager and a native stack that accepts the registration,
`_AddSrpService` does not fail: it registers the service with an entry count of 0, returns
`CHIP_NO_ERROR` and appends a record, so the registry grows by one. -/
theorem C5_entry_count_is_never_rejected :
    textEntries256.length = 256 ∧
    (∀ e ∈ textEntries256, e.mDataSize ≤ 255) ∧
    (_AddSrpService envAllSuccess (some "printer1") (some "_ipp._tcp") 631 textEntries256
      (sampleWorld [])).1 = .CHIP_NO_ERROR ∧
    (_AddSrpService envAllSuccess (some "printer1") (some "_ipp._tcp") 631 textEntries256
      (sampleWorld [])).2.mgr.mSrpClientServices
      = [{ mInstanceName := "printer1", mName := "_ipp._tcp", mPort := 631, mValid := true }] ∧
    (_AddSrpService envAllSuccess (some "printer1") (some "_ipp._tcp") 631 textEntries256
      (sampleWorld [])).2.nativeCalls
      = [.thread_srp_client_register_service_full "printer1" "_ipp._tcp" 631 0] := by
  have hsizes : ∀ e ∈ textEntries256, e.mDataSize ≤ 255 := by
    intro e he
    rw [textEntries256, List.mem_replicate] at he
    simp [he.2]
  have h := addSrpService_reaches_native envAllSuccess (sampleWorld []) "printer1" "_ipp._tcp"
    631 textEntries256 rfl hsizes
  refine ⟨by rw [textEntries256, List.length_replicate], hsizes, ?_, ?_, ?_⟩
  · rw [h]; rfl
  · rw [h]; decide
  · rw [h]; rfl

/-- C6: on an initialized manager, with non-null names, a list of text entries holding at
least one entry whose data size exceeds 255 makes `_AddSrpService` return
`CHIP_ERROR_INVALID_ARGUMENT` and leave everything as it was: no native call is logged and
the registry is unchanged. -/
theorem C6_oversized_text_entry_rejected (env : Env) (w : World) (instanceName name : String)
    (aPort : Nat) (aTxtEntries : List TextEntry)
    (hinit : w.mgr.mIsInitialized = true)
    (hbig : ∃ e ∈ aTxtEntries, 255 < e.mDataSize) :
    (_AddSrpService env (some instanceName) (some name) aPort aTxtEntries w).1
      = .CHIP_ERROR_INVALID_ARGUMENT ∧
    (_AddSrpService env (some instanceName) (some name) aPort aTxtEntries w).2.nativeCalls
      = w.nativeCalls ∧
    (_AddSrpService env (some instanceName) (some name) aPort aTxtEntries w).2.mgr.mSrpClientServices
      = w.mgr.mSrpClientServices ∧
    (_AddSrpService env (some instanceName) (some name) aPort aTxtEntries w).2 = w := by
  simp [_AddSrpService, hinit, fillEntries_eq_none aTxtEntries [] hbig]

/-- Witness of C6: one entry of 256 bytes after a small one. -/
theorem C6_oversized_text_entry_rejected_witness :
    (_AddSrpService envAllSuccess (some "printer1") (some "_ipp._tcp") 631
      [{ mKey := "a", mData := [], mDataSize := 3 }, { mKey := "b", mData := [], mDataSize := 256 }]
      (sampleWorld [])).1 = .CHIP_ERROR_INVALID_ARGUMENT ∧
    (_AddSrpService envAllSuccess (some "printer1") (some "_ipp._tcp") 631
      [{ mKey := "a", mData := [], mDataSize := 3 }, { mKey := "b", mData := [], mDataSize := 256 }]
      (sampleWorld [])).2 = sampleWorld [] := by
  have h := C6_oversized_text_entry_rejected envAllSuccess (sampleWorld []) "printer1"
    "_ipp._tcp" 631
    [{ mKey := "a", mData := [], mDataSize := 3 }, { mKey := "b", mData := [], mDataSize := 256 }]
    rfl ⟨{ mKey := "b", mData := [], mDataSize := 256 }, by simp, by decide⟩
  exact ⟨h.1, h.2.2.2⟩

theorem copyString_of_fits (destSize : Nat) (src : String) (hfit : src.length < destSize) :
    CopyString destSize src = src := by
  have hlen : src.data.length ≤ destSize - 1 := by
    have : src.length = src.data.length := rfl
    omega
  simp [CopyString, List.take_of_length_le hlen]

/-- C9 (counterexample): an empty, non-null instance name and, in a second call, an empty
service name are both accepted by an initialized manager: the native registration is called
with the empty name, `CHIP_NO_ERROR` is returned and a record with the empty name is
appended. -/
theorem C9_empty_name_is_accepted :
    ("" : String).length = 0 ∧
    (sampleWorld []).mgr.mIsInitialized = true ∧
    (_AddSrpService envAllSuccess (some "") (some "_ipp._tcp") 631 [] (sampleWorld [])).1
      = .CHIP_NO_ERROR ∧
    (_AddSrpService envAllSuccess (some "") (some "_ipp._tcp") 631 [] (sampleWorld [])).2.nativeCalls
      = [.thread_srp_client_register_service_full "" "_ipp._tcp" 631 0] ∧
    (_AddSrpService envAllSuccess (some "") (some "_ipp._tcp") 631 []
      (sampleWorld [])).2.mgr.mSrpClientServices
      = [{ mInstanceName := "", mName := "_ipp._tcp", mPort := 631, mValid := true }] ∧
    (_AddSrpService envAllSuccess (some "printer1") (some "") 631 [] (sampleWorld [])).1
      = .CHIP_NO_ERROR ∧
    (_AddSrpService envAllSuccess (some "printer1") (some "") 631 []
      (sampleWorld [])).2.mgr.mSrpClientServices
      = [{ mInstanceName := "printer1", mName := "", mPort := 631, mValid := true }] := by
  refine ⟨rfl, rfl, ?_, ?_, ?_, ?_, ?_⟩ <;> decide

/-- C9 (amended): on an initialized manager `_AddSrpService` called with a null instance
name or a null service name returns `CHIP_ERROR_INVALID_ARGUMENT` and leaves everything as
it was: no native call is logged and the registry is unchanged. -/
theorem C9_null_name_rejected (env : Env) (w : World) (aInstanceName aName : Option String)
    (aPort : Nat) (aTxtEntries : List TextEntry)
    (hinit : w.mgr.mIsInitialized = true)
    (hnull : aInstanceName = none ∨ aName = none) :
    (_AddSrpService env aInstanceName aName aPort aTxtEntries w).1
      = .CHIP_ERROR_INVALID_ARGUMENT ∧
    (_AddSrpService env aInstanceName aName aPort aTxtEntries w).2.nativeCalls
      = w.nativeCalls ∧
    (_AddSrpService env aInstanceName aName aPort aTxtEntries w).2.mgr.mSrpClientServices
      = w.mgr.mSrpClientServices ∧
    (_AddSrpService env aInstanceName aName aPort aTxtEntries w).2 = w := by
  rcases hnull with h | h
  · subst h
    simp [_AddSrpService, hinit]
  · subst h
    cases aInstanceName <;> simp [_AddSrpService, hinit]

/-- Witness of C9 (amended): a null service name. -/
theorem C9_null_name_rejected_witness :
    (_AddSrpService envAllSuccess (some "printer1") none 631 [] (sampleWorld [])).1
      = .CHIP_ERROR_INVALID_ARGUMENT ∧
    (_AddSrpService envAllSuccess (some "printer1") none 631 [] (sampleWorld [])).2
      = sampleWorld [] := by
  have h := C9_null_name_rejected envAllSuccess (sampleWorld []) (some "printer1") none 631 []
    rfl (Or.inr rfl)
  exact ⟨h.1, h.2.2.2⟩

/-- C10: on an initialized manager, with non-null names that fit the name arrays of a
record and text entries each within the one-byte bound: when the native registration
answers success or already-done, `_AddSrpService` returns `CHIP_NO_ERROR` and the registry is
the old one followed by one record with the given instance name, service name and port and
`mValid = true`; on any other native status it returns `CHIP_ERROR_INTERNAL` and the registry
is unchanged. In both cases exactly one native call, the registration, was made. -/
theorem C10_register_appends_or_fails_clean (env : Env) (w : World)
    (instanceName name : String) (aPort : Nat) (aTxtEntries : List TextEntry)
    (hinit : w.mgr.mIsInitialized = true)
    (hsizes : ∀ e ∈ aTxtEntries, e.mDataSize ≤ 255)
    (hfitInstance : instanceName.length < env.sizeofInstanceName)
    (hfitName : name.length < env.sizeofName) :
    ((env.native.status w.nativeCalls.length = .THREAD_ERROR_NONE ∨
        env.native.status w.nativeCalls.length = .THREAD_ERROR_ALREADY_DONE) →
      (_AddSrpService env (some instanceName) (some name) aPort aTxtEntries w).1
        = .CHIP_NO_ERROR ∧
      (_AddSrpService env (some instanceName) (some name) aPort aTxtEntries w).2.mgr.mSrpClientServices
        = w.mgr.mSrpClientServices ++
          [{ mInstanceName := instanceName, mName := name, mPort := aPort, mValid := true }]) ∧
    (¬ (env.native.status w.nativeCalls.length = .THREAD_ERROR_NONE ∨
        env.native.status w.nativeCalls.length = .THREAD_ERROR_ALREADY_DONE) →
      (_AddSrpService env (some instanceName) (some name) aPort aTxtEntries w).1
        = .CHIP_ERROR_INTERNAL ∧
      (_AddSrpService env (some instanceName) (some name) aPort aTxtEntries w).2.mgr.mSrpClientServices
        = w.mgr.mSrpClientServices) ∧
    (_AddSrpService env (some instanceName) (some name) aPort aTxtEntries w).2.nativeCalls
      = w.nativeCalls ++
        [.thread_srp_client_register_service_full instanceName name aPort 0] := by
  rw [addSrpService_reaches_native env w instanceName name aPort aTxtEntries hinit hsizes]
  refine ⟨?_, ?_, ?_⟩
  · intro hok
    simp [hok, World.setServices, World.call, _AddSrpService.newService,
      copyString_of_fits _ _ hfitInstance, copyString_of_fits _ _ hfitName]
  · intro hbad
    simp [hbad, World.call]
  · split_ifs <;> simp [World.setServices, World.call]

/-- Witness of C10: `("printer1", "_ipp._tcp", 631)` with one text entry on a native stack
that accepts the registration. -/
theorem C10_register_appends_or_fails_clean_witness :
    (_AddSrpService envAllSuccess (some "printer1") (some "_ipp._tcp") 631
      [{ mKey := "rp", mData := [105, 112, 112], mDataSize := 3 }] (sampleWorld [])).1
      = .CHIP_NO_ERROR ∧
    (_AddSrpService envAllSuccess (some "printer1") (some "_ipp._tcp") 631
      [{ mKey := "rp", mData := [105, 112, 112], mDataSize := 3 }]
      (sampleWorld [])).2.mgr.mSrpClientServices
      = [{ mInstanceName := "printer1", mName := "_ipp._tcp", mPort := 631, mValid := true }] := by
  have h := C10_register_appends_or_fails_clean envAllSuccess (sampleWorld []) "printer1"
    "_ipp._tcp" 631 [{ mKey := "rp", mData := [105, 112, 112], mDataSize := 3 }]
    rfl (by simp) (by decide) (by decide)
  exact h.1 (Or.inl rfl)

/-! ## Bring-up -/

/-- C8 (code evaluated at the failing input): on a freshly constructed manager,
`_InitThreadStack` with a native stack that initializes, enables and reports the router
role, but then refuses to register the role-changed callback, returns `CHIP_ERROR_INTERNAL`
and leaves a reachable state whose attached flag is true while the initialized flag is
false; it has posted a connectivity-established event and deinitialized the native
stack. -/
theorem C8_failed_init_leaves_attached_without_initialized :
    (_InitThreadStack envCallbackRegistrationFails World.fresh).1 = .CHIP_ERROR_INTERNAL ∧
    (_InitThreadStack envCallbackRegistrationFails World.fresh).2.mgr.mIsAttached = true ∧
    (_InitThreadStack envCallbackRegistrationFails World.fresh).2.mgr.mIsInitialized = false ∧
    _IsThreadAttached (_InitThreadStack envCallbackRegistrationFails World.fresh).2 = true ∧
    (_InitThreadStack envCallbackRegistrationFails World.fresh).2.nativeCalls
      = [.thread_initialize_call, .thread_enable, .thread_get_device_role,
         .thread_srp_server_stop, .thread_srp_client_start,
         .thread_set_device_role_changed_cb, .thread_deinitialize_call] ∧
    (_InitThreadStack envCallbackRegistrationFails World.fresh).2.postedEvents
      = [.kThreadConnectivityChange .kConnectivity_Established, .kThreadStateChange true] ∧
    Reachable envCallbackRegistrationFails
      (_InitThreadStack envCallbackRegistrationFails World.fresh).2 := by
  refine ⟨by decide, by decide, by decide, by decide, by decide, by decide, ?_⟩
  exact Reachable.initThreadStack _ Reachable.fresh

/-! ## Attach orchestration -/

theorem extendsWithoutAttach_refl (w : World) : ExtendsWithoutAttach w w :=
  ⟨[], by simp, by simp⟩

theorem extendsWithoutAttach_trans {a b c : World} (hab : ExtendsWithoutAttach a b)
    (hbc : ExtendsWithoutAttach b c) : ExtendsWithoutAttach a c := by
  rcases hab with ⟨xs, hx, hxs⟩
  rcases hbc with ⟨ys, hy, hys⟩
  refine ⟨xs ++ ys, by rw [hy, hx, List.append_assoc], ?_⟩
  simp [hxs, hys]

theorem extendsWithoutAttach_of_calls_eq {a b c : World} (hab : ExtendsWithoutAttach a b)
    (hbc : c.nativeCalls = b.nativeCalls) : ExtendsWithoutAttach a c := by
  rcases hab with ⟨xs, hx, hxs⟩
  exact ⟨xs, by rw [hbc, hx], hxs⟩

theorem extendsWithoutAttach_call (w : World) (c : NativeCall)
    (hc : c ≠ .thread_network_attach) : ExtendsWithoutAttach w (w.call c) :=
  ⟨[c], rfl, by simpa using hc.symm⟩

theorem extendsWithoutAttach_not_mem {a b : World} (hab : ExtendsWithoutAttach a b) :
    NativeCall.thread_network_attach ∉ b.nativeCalls.drop a.nativeCalls.length := by
  rcases hab with ⟨xs, hx, hxs⟩
  simpa [hx] using hxs

theorem srpRoleSideEffects_nativeCalls (role : thread_device_role_e) (w : World) :
    (srpRoleSideEffects role w).nativeCalls = w.nativeCalls ++ srpCallsFor role := by
  unfold srpRoleSideEffects srpCallsFor
  split_ifs <;> simp [World.call]

theorem attach_not_mem_srpCallsFor (role : thread_device_role_e) :
    NativeCall.thread_network_attach ∉ srpCallsFor role := by
  unfold srpCallsFor
  split_ifs <;> simp

theorem handler_nativeCalls (env : Env) (role : thread_device_role_e) (w : World) :
    (ThreadDeviceRoleChangedHandler env role w).nativeCalls
      = w.nativeCalls ++
        (if env.CHIP_DEVICE_CONFIG_ENABLE_THREAD_SRP_CLIENT then srpCallsFor role else []) := by
  unfold ThreadDeviceRoleChangedHandler
  simp only [World.PostEventOrDie]
  split_ifs <;> simp [srpRoleSideEffects_nativeCalls]

theorem handler_extends (env : Env) (role : thread_device_role_e) (w : World) :
    ExtendsWithoutAttach w (ThreadDeviceRoleChangedHandler env role w) := by
  refine ⟨_, handler_nativeCalls env role w, ?_⟩
  split_ifs
  · exact attach_not_mem_srpCallsFor role
  · simp

theorem isThreadEnabled_extends (env : Env) (w : World) :
    ExtendsWithoutAttach w (_IsThreadEnabled env w).2 := by
  simp only [_IsThreadEnabled]
  split_ifs
  all_goals first
    | exact extendsWithoutAttach_refl _
    | exact extendsWithoutAttach_call _ _ (by decide)

theorem requery_extends (env : Env) (w : World) :
    ExtendsWithoutAttach w (_SetThreadEnabled.requery env w).2 := by
  simp only [_SetThreadEnabled.requery]
  split_ifs
  all_goals first
    | exact extendsWithoutAttach_call _ _ (by decide)
    | exact extendsWithoutAttach_trans (extendsWithoutAttach_call _ _ (by decide))
        (handler_extends _ _ _)

theorem setThreadProvision_extends (env : Env) (netInfo : List Nat) (w : World) :
    ExtendsWithoutAttach w (_SetThreadProvision env netInfo w).2 := by
  simp only [_SetThreadProvision]
  split_ifs
  all_goals first
    | exact extendsWithoutAttach_refl _
    | exact extendsWithoutAttach_call _ _ (by simp)

theorem disable_extends (env : Env) (w : World) :
    ExtendsWithoutAttach w (_SetThreadEnabled.disable env w).2 ∧
    (_SetThreadEnabled.disable env w).2.scheduled = w.scheduled := by
  simp only [_SetThreadEnabled.disable]
  split_ifs
  · exact ⟨extendsWithoutAttach_call _ _ (by decide), rfl⟩
  · exact ⟨extendsWithoutAttach_trans (extendsWithoutAttach_call _ _ (by decide))
      (requery_extends env _), by simp [requery_frame, World.call]⟩

theorem enable_success (env : Env) (w : World)
    (hok : (_SetThreadEnabled.enable env w).1 = .CHIP_NO_ERROR) :
    (∃ calls, (_SetThreadEnabled.enable env w).2.nativeCalls
        = w.nativeCalls ++ .thread_network_attach :: calls) ∧
    (_SetThreadEnabled.enable env w).2.scheduled
      = w.scheduled ++ [.attachReport .THREAD_ERROR_NONE, .startReport .THREAD_ERROR_NONE] := by
  simp only [_SetThreadEnabled.enable] at hok ⊢
  split_ifs at hok ⊢ with h1 h2
  have e1 : World.nextStatus env w = .THREAD_ERROR_NONE := by simpa using h1
  have e2 := h2
  rw [e1] at e2
  simp only [ne_eq, not_not] at e2
  constructor
  · rcases requery_extends env
      ((((w.call .thread_network_attach).ScheduleLambda
        (.attachReport (World.nextStatus env w))).call .thread_start).ScheduleLambda
          (.startReport (World.nextStatus env ((w.call .thread_network_attach).ScheduleLambda
            (.attachReport (World.nextStatus env w)))))) with ⟨cs, hcs, _⟩
    refine ⟨.thread_start :: cs, ?_⟩
    rw [hcs]
    simp [World.call, World.ScheduleLambda]
  · rw [(requery_frame env _).2.2.2.2.1]
    simp [World.call, World.ScheduleLambda, World.nextStatus] at e1 e2 ⊢
    simp [e1, e2]

theorem setThreadEnabled_success_cases (env : Env) (val : Bool) (w : World)
    (hok : (_SetThreadEnabled env val w).1 = .CHIP_NO_ERROR) :
    (ExtendsWithoutAttach w (_SetThreadEnabled env val w).2 ∧
      (_SetThreadEnabled env val w).2.scheduled = w.scheduled) ∨
    (val = true ∧
      (∃ calls, (_SetThreadEnabled env val w).2.nativeCalls = w.nativeCalls ++ calls ∧
        NativeCall.thread_network_attach ∈ calls) ∧
      (_SetThreadEnabled env val w).2.scheduled
        = w.scheduled ++ [.attachReport .THREAD_ERROR_NONE, .startReport .THREAD_ERROR_NONE]) := by
  simp only [_SetThreadEnabled] at hok ⊢
  split_ifs at hok ⊢ with hinit hen hdis
  · right
    have hval : val = true := by
      cases val <;> simp_all
    rcases enable_success env _ hok with ⟨⟨cs, hcs⟩, hsched⟩
    rcases isThreadEnabled_extends env w with ⟨cs0, hcs0, _⟩
    refine ⟨hval, ⟨cs0 ++ .thread_network_attach :: cs, ?_, by simp⟩, ?_⟩
    · rw [hcs, hcs0, List.append_assoc]
    · rw [hsched, (isThreadEnabled_frame env w).2.1]
  · left
    exact ⟨extendsWithoutAttach_trans (isThreadEnabled_extends env w) (disable_extends env _).1,
      by rw [(disable_extends env _).2, (isThreadEnabled_frame env w).2.1]⟩
  · left
    exact ⟨extendsWithoutAttach_trans (isThreadEnabled_extends env w) (requery_extends env _),
      by rw [(requery_frame env _).2.2.2.2.1, (isThreadEnabled_frame env w).2.1]⟩

/-- A successful `_AttachToThreadNetwork` with a commissioned dataset stores the callback,
invokes nothing, and either made no native attach call and scheduled nothing, or scheduled
the two reports of a successful attach and start. -/
theorem attachToThreadNetwork_success_cases (env : Env) (dataset : List Nat)
    (callback : Option Nat) (w : World)
    (hcomm : env.IsCommissioned dataset = true)
    (hok : (_AttachToThreadNetwork env dataset callback w).1 = .CHIP_NO_ERROR) :
    (_AttachToThreadNetwork env dataset callback w).2.mgr.mpConnectCallback = callback ∧
    (_AttachToThreadNetwork env dataset callback w).2.onResultLog = w.onResultLog ∧
    (∃ calls, (_AttachToThreadNetwork env dataset callback w).2.nativeCalls
        = w.nativeCalls ++ calls) ∧
    ((ExtendsWithoutAttach w (_AttachToThreadNetwork env dataset callback w).2 ∧
        (_AttachToThreadNetwork env dataset callback w).2.scheduled = w.scheduled) ∨
      (_AttachToThreadNetwork env dataset callback w).2.scheduled
        = w.scheduled ++ [.attachReport .THREAD_ERROR_NONE, .startReport .THREAD_ERROR_NONE]) := by
  refine ⟨?_, (attachToThreadNetwork_frame env dataset callback w).2.2, ?_⟩
  · simp only [_AttachToThreadNetwork, hcomm, if_true] at hok ⊢
    split_ifs at hok ⊢
    all_goals first
      | exact absurd hok (by assumption)
      | rfl
  · simp only [_AttachToThreadNetwork, hcomm, if_true] at hok ⊢
    split_ifs at hok ⊢ with h1 h2 h3
    all_goals first
      | exact absurd hok (by assumption)
      | skip
    have c1 := setThreadEnabled_success_cases env false _ (not_not.mp h1)
    have e2 := setThreadProvision_extends env dataset
      (_SetThreadEnabled env false
        { w with mgr := { w.mgr with mpConnectCallback := none } }).2
    have f2 := (setThreadProvision_frame env dataset
      (_SetThreadEnabled env false
        { w with mgr := { w.mgr with mpConnectCallback := none } }).2).2.1
    have c3 := setThreadEnabled_success_cases env true _ (not_not.mp h3)
    rcases c1 with ⟨ext1, sch1⟩ | ⟨hval, _⟩
    swap
    · cases hval
    have ext12 : ExtendsWithoutAttach w (_SetThreadProvision env dataset
        (_SetThreadEnabled env false
          { w with mgr := { w.mgr with mpConnectCallback := none } }).2).2 :=
      extendsWithoutAttach_trans
        (extendsWithoutAttach_trans
          (b := { w with mgr := { w.mgr with mpConnectCallback := none } })
          ⟨[], by simp, by simp⟩ ext1) e2
    rcases c3 with ⟨ext3, sch3⟩ | ⟨_, ⟨cs, hcs, _⟩, sch3⟩
    · refine ⟨?_, Or.inl ⟨?_, ?_⟩⟩
      · rcases extendsWithoutAttach_trans ext12 ext3 with ⟨cs, hcs, _⟩
        exact ⟨cs, hcs⟩
      · exact extendsWithoutAttach_of_calls_eq (extendsWithoutAttach_trans ext12 ext3) rfl
      · show (_SetThreadEnabled env true _).2.scheduled = w.scheduled
        rw [sch3, f2, sch1]
    · refine ⟨?_, Or.inr ?_⟩
      · rcases ext12 with ⟨cs12, hcs12, _⟩
        refine ⟨cs12 ++ cs, ?_⟩
        show (_SetThreadEnabled env true _).2.nativeCalls = _
        rw [hcs, hcs12, List.append_assoc]
      · show (_SetThreadEnabled env true _).2.scheduled = _
        rw [sch3, f2, sch1]

theorem lambda_run_of_no_callback (l : ScheduledLambda) (w : World)
    (hnone : w.mgr.mpConnectCallback = none) : l.run w = w := by
  cases l <;> simp [ScheduledLambda.run, hnone]

theorem lambda_run_of_not_fires (l : ScheduledLambda) (w : World)
    (hl : l.fires = false) : l.run w = w := by
  cases l with
  | attachReport e =>
    have he : e = .THREAD_ERROR_NONE := by simpa [ScheduledLambda.fires] using hl
    subst he
    cases h : w.mgr.mpConnectCallback <;> simp [ScheduledLambda.run, h]
  | startReport e => simp [ScheduledLambda.fires] at hl

theorem lambda_run_of_fires (l : ScheduledLambda) (w : World) (cb : Nat)
    (hcb : w.mgr.mpConnectCallback = some cb) (hl : l.fires = true) :
    ∃ st, l.run w = w.reportAndClear cb st := by
  cases l with
  | attachReport e =>
    have he : e ≠ .THREAD_ERROR_NONE := by simpa [ScheduledLambda.fires] using hl
    exact ⟨.kUnknownError, by simp [ScheduledLambda.run, hcb, he]⟩
  | startReport e =>
    exact ⟨if e = .THREAD_ERROR_NONE then .kSuccess else .kUnknownError,
      by simp [ScheduledLambda.run, hcb]⟩

theorem runScheduledItems_no_callback (q : List ScheduledLambda) :
    ∀ w : World, w.mgr.mpConnectCallback = none →
      (runScheduledItems q w).onResultLog = w.onResultLog ∧
      (runScheduledItems q w).mgr.mpConnectCallback = none := by
  induction q with
  | nil => intro w h; simp [runScheduledItems, h]
  | cons l rest ih =>
    intro w h
    simp only [runScheduledItems]
    rw [lambda_run_of_no_callback l _ (by simpa using h)]
    simpa using ih { w with scheduled := rest } (by simpa using h)

theorem runScheduledItems_scheduled (q : List ScheduledLambda) :
    ∀ w : World, w.scheduled = q → (runScheduledItems q w).scheduled = [] := by
  induction q with
  | nil => intro w h; simpa [runScheduledItems] using h
  | cons l rest ih =>
    intro w _
    simp only [runScheduledItems]
    exact ih _ (by simp [lambda_run_frame])

theorem runScheduledItems_reports_once (q : List ScheduledLambda) :
    ∀ (w : World) (cb : Nat), w.mgr.mpConnectCallback = some cb →
      (∃ l ∈ q, l.fires = true) →
      ∃ st, (runScheduledItems q w).onResultLog = w.onResultLog ++ [(cb, st)] := by
  induction q with
  | nil => intro w cb _ h; simp at h
  | cons l rest ih =>
    intro w cb hcb hfire
    simp only [runScheduledItems]
    cases hl : l.fires with
    | true =>
      rcases lambda_run_of_fires l { w with scheduled := rest } cb (by simpa using hcb) hl
        with ⟨st, hst⟩
      refine ⟨st, ?_⟩
      rw [hst, (runScheduledItems_no_callback rest _ (by simp [World.reportAndClear])).1]
      simp [World.reportAndClear]
    | false =>
      rw [lambda_run_of_not_fires l _ hl]
      have hrest : ∃ x ∈ rest, x.fires = true := by
        rcases hfire with ⟨x, hx, hxf⟩
        rcases List.mem_cons.mp hx with rfl | hx
        · rw [hl] at hxf; cases hxf
        · exact ⟨x, hx, hxf⟩
      simpa using ih { w with scheduled := rest } cb (by simpa using hcb) hrest

theorem runScheduledItems_fresh_attempt (rest : List ScheduledLambda) (w : World) (cb : Nat)
    (hcb : w.mgr.mpConnectCallback = some cb) :
    (runScheduledItems
      (.attachReport .THREAD_ERROR_NONE :: .startReport .THREAD_ERROR_NONE :: rest)
      w).onResultLog = w.onResultLog ++ [(cb, .kSuccess)] := by
  simp only [runScheduledItems]
  rw [lambda_run_of_not_fires (.attachReport .THREAD_ERROR_NONE) _ (by simp [ScheduledLambda.fires])]
  rw [(runScheduledItems_no_callback rest _ (by simp [ScheduledLambda.run, hcb, World.reportAndClear])).1]
  simp [ScheduledLambda.run, hcb, World.reportAndClear]

theorem invocations_append_single (w w' : World) (cb cb' : Nat) (st : Status)
    (h : w'.onResultLog = w.onResultLog ++ [(cb, st)]) :
    w'.invocations cb' = w.invocations cb' + (if cb = cb' then 1 else 0) := by
  unfold World.invocations
  rw [h, List.filter_append, List.length_append]
  by_cases hc : cb = cb' <;> simp [hc]

/-! ## Provisioning store -/

/-- C11: on a manager whose initialized flag is false, for every input,
`_SetThreadProvision` and `_GetThreadProvision` both return `CHIP_ERROR_UNINITIALIZED` and
leave everything as it was: no native call is logged, no event is posted, the cached
dataset and with it `_IsThreadProvisioned` are unchanged, and the caller's dataset object is
not written. -/
theorem C11_provision_requires_init (env : Env) (w : World) (netInfo dataset : List Nat)
    (huninit : w.mgr.mIsInitialized = false) :
    (_SetThreadProvision env netInfo w).1 = .CHIP_ERROR_UNINITIALIZED ∧
    (_SetThreadProvision env netInfo w).2.nativeCalls = w.nativeCalls ∧
    (_SetThreadProvision env netInfo w).2.postedEvents = w.postedEvents ∧
    (_SetThreadProvision env netInfo w).2.mgr.mDataset = w.mgr.mDataset ∧
    _IsThreadProvisioned env (_SetThreadProvision env netInfo w).2 = _IsThreadProvisioned env w ∧
    (_SetThreadProvision env netInfo w).2 = w ∧
    (_GetThreadProvision env dataset w).1 = .CHIP_ERROR_UNINITIALIZED ∧
    (_GetThreadProvision env dataset w).2.1 = dataset ∧
    (_GetThreadProvision env dataset w).2.2.nativeCalls = w.nativeCalls ∧
    (_GetThreadProvision env dataset w).2.2.postedEvents = w.postedEvents ∧
    (_GetThreadProvision env dataset w).2.2.mgr.mDataset = w.mgr.mDataset ∧
    _IsThreadProvisioned env (_GetThreadProvision env dataset w).2.2
      = _IsThreadProvisioned env w ∧
    (_GetThreadProvision env dataset w).2.2 = w := by
  have hset : _SetThreadProvision env netInfo w = (.CHIP_ERROR_UNINITIALIZED, w) := by
    simp [_SetThreadProvision, huninit]
  have hget : _GetThreadProvision env dataset w = (.CHIP_ERROR_UNINITIALIZED, dataset, w) := by
    simp [_GetThreadProvision, huninit]
  rw [hset, hget]
  simp

/-- Witness of C11: the freshly constructed manager and a dataset the sample validity
predicate accepts. -/
theorem C11_provision_requires_init_witness :
    (_SetThreadProvision envAllSuccess [1, 2, 3] World.fresh).1 = .CHIP_ERROR_UNINITIALIZED ∧
    (_SetThreadProvision envAllSuccess [1, 2, 3] World.fresh).2 = World.fresh ∧
    (_GetThreadProvision envAllSuccess [] World.fresh).1 = .CHIP_ERROR_UNINITIALIZED ∧
    (_GetThreadProvision envAllSuccess [] World.fresh).2.2 = World.fresh := by
  have h := C11_provision_requires_init envAllSuccess World.fresh [1, 2, 3] [] rfl
  exact ⟨h.1, h.2.2.2.2.2.1, h.2.2.2.2.2.2.1, h.2.2.2.2.2.2.2.2.2.2.2.2⟩

/-- C12: on an initialized manager, a byte sequence that fails
`Thread::OperationalDataset::IsValid` makes `_SetThreadProvision` return
`CHIP_ERROR_INVALID_ARGUMENT` and leave everything as it was: no native call is logged and
no event, in particular no provisioning-changed event, is posted. -/
theorem C12_invalid_dataset_rejected (env : Env) (w : World) (netInfo : List Nat)
    (hinit : w.mgr.mIsInitialized = true)
    (hinvalid : env.IsValid netInfo = false) :
    (_SetThreadProvision env netInfo w).1 = .CHIP_ERROR_INVALID_ARGUMENT ∧
    (_SetThreadProvision env netInfo w).2.nativeCalls = w.nativeCalls ∧
    (_SetThreadProvision env netInfo w).2.postedEvents = w.postedEvents ∧
    (_SetThreadProvision env netInfo w).2 = w := by
  have hset : _SetThreadProvision env netInfo w = (.CHIP_ERROR_INVALID_ARGUMENT, w) := by
    simp [_SetThreadProvision, hinit, hinvalid]
  rw [hset]
  simp

/-- Witness of C12: the empty byte sequence, which the sample validity predicate
rejects. -/
theorem C12_invalid_dataset_rejected_witness :
    envAllSuccess.IsValid [] = false ∧
    (_SetThreadProvision envAllSuccess [] (sampleWorld [])).1 = .CHIP_ERROR_INVALID_ARGUMENT ∧
    (_SetThreadProvision envAllSuccess [] (sampleWorld [])).2 = sampleWorld [] := by
  have h := C12_invalid_dataset_rejected envAllSuccess (sampleWorld []) [] rfl rfl
  exact ⟨rfl, h.1, h.2.2.2⟩

/-! ## Enabling the network -/

theorem isThreadEnabled_of_disabled (env : Env) (w : World)
    (hinit : w.mgr.mIsInitialized = true)
    (hquery : env.native.status w.nativeCalls.length = .THREAD_ERROR_NONE)
    (hrole : env.native.deviceRole w.nativeCalls.length = .THREAD_DEVICE_ROLE_DISABLED) :
    _IsThreadEnabled env w = (false, w.call .thread_get_device_role) := by
  simp [_IsThreadEnabled, hinit, World.nextStatus, World.nextRole, hquery, hrole]

theorem setThreadEnabled_true_of_disabled (env : Env) (w : World)
    (hinit : w.mgr.mIsInitialized = true)
    (hquery : env.native.status w.nativeCalls.length = .THREAD_ERROR_NONE)
    (hrole : env.native.deviceRole w.nativeCalls.length = .THREAD_DEVICE_ROLE_DISABLED) :
    _SetThreadEnabled env true w
      = _SetThreadEnabled.enable env (w.call .thread_get_device_role) := by
  simp [_SetThreadEnabled, hinit, isThreadEnabled_of_disabled env w hinit hquery hrole]

/-- C15 (counterexample): on an initialized manager whose native role is disabled, with a
native attach call that fails, `_SetThreadEnabled(true)` returns `CHIP_ERROR_INTERNAL`
after the role query and the attach call: the native start call is not issued and only the
first deferred report is scheduled. -/
theorem C15_start_not_issued_after_failed_attach :
    (sampleWorld []).mgr.mIsInitialized = true ∧
    (envDisabledFailingAt 1).native.deviceRole 0 = .THREAD_DEVICE_ROLE_DISABLED ∧
    (_SetThreadEnabled (envDisabledFailingAt 1) true (sampleWorld [])).1
      = .CHIP_ERROR_INTERNAL ∧
    (_SetThreadEnabled (envDisabledFailingAt 1) true (sampleWorld [])).2.nativeCalls
      = [.thread_get_device_role, .thread_network_attach] ∧
    NativeCall.thread_start ∉
      (_SetThreadEnabled (envDisabledFailingAt 1) true (sampleWorld [])).2.nativeCalls ∧
    (_SetThreadEnabled (envDisabledFailingAt 1) true (sampleWorld [])).2.scheduled
      = [.attachReport (.other (-1))] := by
  refine ⟨rfl, rfl, ?_, ?_, ?_, ?_⟩ <;> decide

/-- C15 (amended): on an initialized manager whose native role is reported disabled,
`_SetThreadEnabled(true)` issues the native attach call and schedules the first deferred
report. When the attach call failed it returns `CHIP_ERROR_INTERNAL` at once: no start call,
no second report. When the attach call succeeded it issues the native start call and
schedules the second deferred report, which, run while a callback is pending, reports
`kSuccess` when the start call succeeded and `kUnknownError` otherwise, and clears the
callback. -/
theorem C15_start_only_after_successful_attach (env : Env) (w : World)
    (hinit : w.mgr.mIsInitialized = true)
    (hquery : env.native.status w.nativeCalls.length = .THREAD_ERROR_NONE)
    (hrole : env.native.deviceRole w.nativeCalls.length = .THREAD_DEVICE_ROLE_DISABLED) :
    (env.native.status (w.nativeCalls.length + 1) ≠ .THREAD_ERROR_NONE →
      (_SetThreadEnabled env true w).1 = .CHIP_ERROR_INTERNAL ∧
      (_SetThreadEnabled env true w).2.nativeCalls
        = w.nativeCalls ++ [.thread_get_device_role, .thread_network_attach] ∧
      (_SetThreadEnabled env true w).2.scheduled
        = w.scheduled ++ [.attachReport (env.native.status (w.nativeCalls.length + 1))]) ∧
    (env.native.status (w.nativeCalls.length + 1) = .THREAD_ERROR_NONE →
      (∃ calls, (_SetThreadEnabled env true w).2.nativeCalls
        = w.nativeCalls ++
          [.thread_get_device_role, .thread_network_attach, .thread_start] ++ calls) ∧
      (_SetThreadEnabled env true w).2.scheduled
        = w.scheduled ++ [.attachReport .THREAD_ERROR_NONE,
            .startReport (env.native.status (w.nativeCalls.length + 2))] ∧
      ((_SetThreadEnabled env true w).1 = .CHIP_ERROR_INTERNAL ∨
        env.native.status (w.nativeCalls.length + 2) = .THREAD_ERROR_NONE)) ∧
    (∀ (threadErr : thread_error_e) (pending : World) (cb : Nat),
      pending.mgr.mpConnectCallback = some cb →
      (ScheduledLambda.startReport threadErr).run pending
        = pending.reportAndClear cb
            (if threadErr = .THREAD_ERROR_NONE then .kSuccess else .kUnknownError)) := by
  rw [setThreadEnabled_true_of_disabled env w hinit hquery hrole]
  refine ⟨?_, ?_, ?_⟩
  · intro hfail
    simp [_SetThreadEnabled.enable, World.nextStatus, World.call, World.ScheduleLambda, hfail]
  · intro hattach
    by_cases hstart : env.native.status (w.nativeCalls.length + 2) = .THREAD_ERROR_NONE
    · rcases requery_extends env
        (((((w.call .thread_get_device_role).call .thread_network_attach).ScheduleLambda
          (.attachReport .THREAD_ERROR_NONE)).call .thread_start).ScheduleLambda
            (.startReport .THREAD_ERROR_NONE)) with ⟨cs, hcs, _⟩
      have hreq := (requery_frame env
        (((((w.call .thread_get_device_role).call .thread_network_attach).ScheduleLambda
          (.attachReport .THREAD_ERROR_NONE)).call .thread_start).ScheduleLambda
            (.startReport .THREAD_ERROR_NONE))).2.2.2.2.1
      have hen : _SetThreadEnabled.enable env (w.call .thread_get_device_role)
          = _SetThreadEnabled.requery env
            (((((w.call .thread_get_device_role).call .thread_network_attach).ScheduleLambda
              (.attachReport .THREAD_ERROR_NONE)).call .thread_start).ScheduleLambda
                (.startReport .THREAD_ERROR_NONE)) := by
        simp [_SetThreadEnabled.enable, World.nextStatus, World.call, World.ScheduleLambda,
          hattach, hstart]
      rw [hen]
      refine ⟨⟨cs, ?_⟩, ?_, Or.inr hstart⟩
      · rw [hcs]
        simp [World.call, World.ScheduleLambda]
      · rw [hreq]
        simp [World.call, World.ScheduleLambda, hstart]
    · refine ⟨⟨[], ?_⟩, ?_, Or.inl ?_⟩ <;>
        simp [_SetThreadEnabled.enable, World.nextStatus, World.call, World.ScheduleLambda,
          hattach, hstart]
  · intro threadErr pending cb hcb
    simp [ScheduledLambda.run, hcb]

/-- Witness of C15 (amended): the native stack reports the disabled role and accepts every
call; attach and start are both issued and both reports are scheduled. -/
theorem C15_start_only_after_successful_attach_witness :
    (_SetThreadEnabled envAllSuccess true (sampleWorld [])).2.scheduled
      = [.attachReport .THREAD_ERROR_NONE, .startReport .THREAD_ERROR_NONE] ∧
    (∃ calls, (_SetThreadEnabled envAllSuccess true (sampleWorld [])).2.nativeCalls
      = [.thread_get_device_role, .thread_network_attach, .thread_start] ++ calls) := by
  have h := C15_start_only_after_successful_attach envAllSuccess (sampleWorld []) rfl rfl rfl
  exact ⟨(h.2.1 rfl).2.1, (h.2.1 rfl).1⟩

/-! ## Native status "already done" -/

theorem lambda_run_of_fires_status (l : ScheduledLambda) (w : World) (cb : Nat)
    (hcb : w.mgr.mpConnectCallback = some cb) (hl : l.fires = true) :
    l.run w = w.reportAndClear cb l.reportedStatus := by
  cases l with
  | attachReport e =>
    have he : e ≠ .THREAD_ERROR_NONE := by simpa [ScheduledLambda.fires] using hl
    simp [ScheduledLambda.run, hcb, he, ScheduledLambda.reportedStatus]
  | startReport e =>
    simp [ScheduledLambda.run, hcb, ScheduledLambda.reportedStatus]

theorem runScheduledItems_log (q : List ScheduledLambda) :
    ∀ (w : World) (cb : Nat), w.mgr.mpConnectCallback = some cb →
      (runScheduledItems q w).onResultLog = w.onResultLog ++ expectedReports cb q := by
  induction q with
  | nil => intro w cb _; simp [runScheduledItems, expectedReports]
  | cons l rest ih =>
    intro w cb hcb
    simp only [runScheduledItems]
    cases hl : l.fires with
    | true =>
      rw [lambda_run_of_fires_status l _ cb (by simpa using hcb) hl,
        (runScheduledItems_no_callback rest _ (by simp [World.reportAndClear])).1]
      simp [World.reportAndClear, expectedReports, List.find?_cons, hl]
    | false =>
      rw [lambda_run_of_not_fires l _ hl]
      have h := ih { w with scheduled := rest } cb (by simpa using hcb)
      simpa [expectedReports, List.find?_cons, hl] using h

theorem expectedReports_append_of_stale (cb : Nat) (stale own : List ScheduledLambda)
    (l : ScheduledLambda) (h : stale.find? ScheduledLambda.fires = some l) :
    expectedReports cb (stale ++ own) = [(cb, l.reportedStatus)] := by
  simp [expectedReports, List.find?_append, h]

theorem expectedReports_append_of_no_stale (cb : Nat) (stale own : List ScheduledLambda)
    (h : stale.find? ScheduledLambda.fires = none) :
    expectedReports cb (stale ++ own) = expectedReports cb own := by
  simp [expectedReports, List.find?_append, h]

/-- C14 (counterexample): a first `_AttachToThreadNetwork` whose native attach call fails
returns `CHIP_ERROR_INTERNAL`, stores no callback and leaves its first report queued; a
second `_AttachToThreadNetwork` then succeeds (native attach and start both succeed) and
stores callback 2. When the scheduler runs, the stale report of the first attempt invokes
callback 2 with `kUnknownError`; the reports of the second attempt find no callback. -/
theorem C14_stale_report_fires_on_later_callback :
    (_AttachToThreadNetwork (envDisabledFailingAt 5) [1] (some 1) (sampleWorld [])).1
      = .CHIP_ERROR_INTERNAL ∧
    (_AttachToThreadNetwork (envDisabledFailingAt 5) [1] (some 1)
      (sampleWorld [])).2.mgr.mpConnectCallback = none ∧
    (_AttachToThreadNetwork (envDisabledFailingAt 5) [1] (some 1) (sampleWorld [])).2.scheduled
      = [.attachReport (.other (-1))] ∧
    (_AttachToThreadNetwork (envDisabledFailingAt 5) [1] (some 2)
      (_AttachToThreadNetwork (envDisabledFailingAt 5) [1] (some 1) (sampleWorld [])).2).1
      = .CHIP_NO_ERROR ∧
    (_AttachToThreadNetwork (envDisabledFailingAt 5) [1] (some 2)
      (_AttachToThreadNetwork (envDisabledFailingAt 5) [1] (some 1)
        (sampleWorld [])).2).2.mgr.mpConnectCallback = some 2 ∧
    (_AttachToThreadNetwork (envDisabledFailingAt 5) [1] (some 2)
      (_AttachToThreadNetwork (envDisabledFailingAt 5) [1] (some 1)
        (sampleWorld [])).2).2.scheduled
      = [.attachReport (.other (-1)), .attachReport .THREAD_ERROR_NONE,
         .startReport .THREAD_ERROR_NONE] ∧
    (runNextScheduled (_AttachToThreadNetwork (envDisabledFailingAt 5) [1] (some 2)
      (_AttachToThreadNetwork (envDisabledFailingAt 5) [1] (some 1)
        (sampleWorld [])).2).2).onResultLog = [(2, .kUnknownError)] ∧
    (runAllScheduled (_AttachToThreadNetwork (envDisabledFailingAt 5) [1] (some 2)
      (_AttachToThreadNetwork (envDisabledFailingAt 5) [1] (some 1)
        (sampleWorld [])).2).2).onResultLog = [(2, .kUnknownError)] := by
  refine ⟨?_, ?_, ?_, ?_, ?_, ?_, ?_, ?_⟩ <;> decide

/-- C14 (amended): a deferred report invokes whatever callback is pending when it runs.
After a successful `_AttachToThreadNetwork` with a commissioned dataset has stored `cb2`,
the queue is the reports that were already pending followed by the reports of this attempt
(none, or those of a successful attach and start). Running the queue adds at most one
`OnResult`, on `cb2`, made by the first report of the queue that fires: when a report that
was already pending fires, `cb2` receives the status of that earlier attempt; only when none
of them fires does `cb2` receive the status of its own attempt. -/
theorem C14_pending_callback_gets_first_firing_report (env : Env) (w : World)
    (dataset : List Nat) (cb2 : Nat)
    (hcomm : env.IsCommissioned dataset = true)
    (hok : (_AttachToThreadNetwork env dataset (some cb2) w).1 = .CHIP_NO_ERROR) :
    ∃ own : List ScheduledLambda,
      (_AttachToThreadNetwork env dataset (some cb2) w).2.scheduled = w.scheduled ++ own ∧
      (own = [] ∨
        own = [.attachReport .THREAD_ERROR_NONE, .startReport .THREAD_ERROR_NONE]) ∧
      (runAllScheduled (_AttachToThreadNetwork env dataset (some cb2) w).2).onResultLog
        = w.onResultLog ++ expectedReports cb2 (w.scheduled ++ own) ∧
      (∀ l, w.scheduled.find? ScheduledLambda.fires = some l →
        (runAllScheduled (_AttachToThreadNetwork env dataset (some cb2) w).2).onResultLog
          = w.onResultLog ++ [(cb2, l.reportedStatus)]) ∧
      (w.scheduled.find? ScheduledLambda.fires = none →
        (runAllScheduled (_AttachToThreadNetwork env dataset (some cb2) w).2).onResultLog
          = w.onResultLog ++ expectedReports cb2 own) := by
  rcases attachToThreadNetwork_success_cases env dataset (some cb2) w hcomm hok with
    ⟨hcb, hlog, _, hcase⟩
  have hown : ∃ own : List ScheduledLambda,
      (_AttachToThreadNetwork env dataset (some cb2) w).2.scheduled = w.scheduled ++ own ∧
      (own = [] ∨
        own = [.attachReport .THREAD_ERROR_NONE, .startReport .THREAD_ERROR_NONE]) := by
    rcases hcase with ⟨_, hsame⟩ | hsched
    · exact ⟨[], by simpa using hsame, Or.inl rfl⟩
    · exact ⟨_, hsched, Or.inr rfl⟩
  rcases hown with ⟨own, hsched, hshape⟩
  have hrun : (runAllScheduled (_AttachToThreadNetwork env dataset (some cb2) w).2).onResultLog
      = w.onResultLog ++ expectedReports cb2 (w.scheduled ++ own) := by
    rw [runAllScheduled, runScheduledItems_log _ _ cb2 hcb, hlog, hsched]
  refine ⟨own, hsched, hshape, hrun, ?_, ?_⟩
  · intro l hl
    rw [hrun, expectedReports_append_of_stale cb2 _ own l hl]
  · intro hnone
    rw [hrun, expectedReports_append_of_no_stale cb2 _ own hnone]

/-- Witness of C14 (amended): the second attach of the counterexample run; the stale report
of the failed first attempt is pending and its status is what callback 2 receives. -/
theorem C14_pending_callback_gets_first_firing_report_witness :
    (runAllScheduled (_AttachToThreadNetwork (envDisabledFailingAt 5) [1] (some 2)
      (_AttachToThreadNetwork (envDisabledFailingAt 5) [1] (some 1)
        (sampleWorld [])).2).2).onResultLog = [(2, .kUnknownError)] := by
  rcases C14_pending_callback_gets_first_firing_report (envDisabledFailingAt 5)
    (_AttachToThreadNetwork (envDisabledFailingAt 5) [1] (some 1) (sampleWorld [])).2
    [1] 2 rfl (by decide) with ⟨_, _, _, _, hstale, _⟩
  exact hstale (.attachReport (.other (-1))) (by decide)

/-! ## Two attach calls in a row -/

/-- A successful `_AttachToThreadNetwork` with a commissioned dataset schedules its two
reports exactly when it issued the native attach call, and nothing otherwise. -/
theorem attachToThreadNetwork_success_attach_iff (env : Env) (dataset : List Nat)
    (callback : Option Nat) (w : World)
    (hcomm : env.IsCommissioned dataset = true)
    (hok : (_AttachToThreadNetwork env dataset callback w).1 = .CHIP_NO_ERROR) :
    ∃ calls, (_AttachToThreadNetwork env dataset callback w).2.nativeCalls
        = w.nativeCalls ++ calls ∧
      ((NativeCall.thread_network_attach ∉ calls ∧
          (_AttachToThreadNetwork env dataset callback w).2.scheduled = w.scheduled) ∨
        (NativeCall.thread_network_attach ∈ calls ∧
          (_AttachToThreadNetwork env dataset callback w).2.scheduled
            = w.scheduled ++
              [.attachReport .THREAD_ERROR_NONE, .startReport .THREAD_ERROR_NONE])) := by
  simp only [_AttachToThreadNetwork, hcomm, if_true] at hok ⊢
  split_ifs at hok ⊢ with h1 h2 h3
  all_goals first
    | exact absurd hok (by assumption)
    | skip
  have c1 := setThreadEnabled_success_cases env false _ (not_not.mp h1)
  have e2 := setThreadProvision_extends env dataset
    (_SetThreadEnabled env false
      { w with mgr := { w.mgr with mpConnectCallback := none } }).2
  have f2 := (setThreadProvision_frame env dataset
    (_SetThreadEnabled env false
      { w with mgr := { w.mgr with mpConnectCallback := none } }).2).2.1
  have c3 := setThreadEnabled_success_cases env true _ (not_not.mp h3)
  rcases c1 with ⟨ext1, sch1⟩ | ⟨hval, _⟩
  swap
  · cases hval
  have ext12 : ExtendsWithoutAttach w (_SetThreadProvision env dataset
      (_SetThreadEnabled env false
        { w with mgr := { w.mgr with mpConnectCallback := none } }).2).2 :=
    extendsWithoutAttach_trans
      (extendsWithoutAttach_trans
        (b := { w with mgr := { w.mgr with mpConnectCallback := none } })
        ⟨[], by simp, by simp⟩ ext1) e2
  rcases c3 with ⟨ext3, sch3⟩ | ⟨_, ⟨cs, hcs, hmem⟩, sch3⟩
  · rcases extendsWithoutAttach_trans ext12 ext3 with ⟨cs, hcs, hnot⟩
    refine ⟨cs, hcs, Or.inl ⟨hnot, ?_⟩⟩
    show (_SetThreadEnabled env true _).2.scheduled = w.scheduled
    rw [sch3, f2, sch1]
  · rcases ext12 with ⟨cs12, hcs12, _⟩
    refine ⟨cs12 ++ cs, ?_, Or.inr ⟨by simp [hmem], ?_⟩⟩
    · show (_SetThreadEnabled env true _).2.nativeCalls = _
      rw [hcs, hcs12, List.append_assoc]
    · show (_SetThreadEnabled env true _).2.scheduled = _
      rw [sch3, f2, sch1]

theorem expectedReports_of_fires (cb : Nat) (queue : List ScheduledLambda)
    (h : ∃ l ∈ queue, l.fires = true) :
    ∃ st, expectedReports cb queue = [(cb, st)] := by
  unfold expectedReports
  cases hfind : queue.find? ScheduledLambda.fires with
  | some l => exact ⟨l.reportedStatus, rfl⟩
  | none =>
    rcases h with ⟨l, hl, hf⟩
    have := List.find?_eq_none.mp hfind l hl
    simp [hf] at this

theorem expectedReports_of_none_fires (cb : Nat) (queue : List ScheduledLambda)
    (h : ∀ l ∈ queue, l.fires = false) :
    expectedReports cb queue = [] := by
  unfold expectedReports
  have hfind : queue.find? ScheduledLambda.fires = none := by
    rw [List.find?_eq_none]
    intro l hl
    simp [h l hl]
  rw [hfind]

theorem invocations_of_log_eq (w w' : World) (cb : Nat) (h : w'.onResultLog = w.onResultLog) :
    w'.invocations cb = w.invocations cb := by
  unfold World.invocations
  rw [h]

/-- What two successful `_AttachToThreadNetwork` calls in a row add to the native call log
and to the work queue: the queue grows exactly when one of them issued the native attach
call, and then by reports that start with those of a successful attach and start. -/
theorem attachTwice_queue (env : Env) (w : World) (ds1 ds2 : List Nat)
    (cb1 cb2 : Option Nat)
    (hcomm1 : env.IsCommissioned ds1 = true)
    (hcomm2 : env.IsCommissioned ds2 = true)
    (hok1 : (_AttachToThreadNetwork env ds1 cb1 w).1 = .CHIP_NO_ERROR)
    (hok2 : (_AttachToThreadNetwork env ds2 cb2
      (_AttachToThreadNetwork env ds1 cb1 w).2).1 = .CHIP_NO_ERROR) :
    ∃ own : List ScheduledLambda,
      (_AttachToThreadNetwork env ds2 cb2 (_AttachToThreadNetwork env ds1 cb1 w).2).2.scheduled
        = w.scheduled ++ own ∧
      ((NativeCall.thread_network_attach ∉
          (_AttachToThreadNetwork env ds2 cb2
            (_AttachToThreadNetwork env ds1 cb1 w).2).2.nativeCalls.drop w.nativeCalls.length ∧
          own = []) ∨
        (NativeCall.thread_network_attach ∈
          (_AttachToThreadNetwork env ds2 cb2
            (_AttachToThreadNetwork env ds1 cb1 w).2).2.nativeCalls.drop w.nativeCalls.length ∧
          ∃ rest, own = ScheduledLambda.attachReport .THREAD_ERROR_NONE ::
            ScheduledLambda.startReport .THREAD_ERROR_NONE :: rest)) := by
  rcases attachToThreadNetwork_success_attach_iff env ds1 cb1 w hcomm1 hok1 with
    ⟨cs1, hcs1, hcase1⟩
  rcases attachToThreadNetwork_success_attach_iff env ds2 cb2 _ hcomm2 hok2 with
    ⟨cs2, hcs2, hcase2⟩
  have hdrop : (_AttachToThreadNetwork env ds2 cb2
      (_AttachToThreadNetwork env ds1 cb1 w).2).2.nativeCalls.drop w.nativeCalls.length
      = cs1 ++ cs2 := by
    rw [hcs2, hcs1, List.append_assoc]
    simp
  rw [hdrop]
  rcases hcase1 with ⟨hn1, sch1⟩ | ⟨hm1, sch1⟩
  · rcases hcase2 with ⟨hn2, sch2⟩ | ⟨hm2, sch2⟩
    · exact ⟨[], by rw [sch2, sch1]; simp, Or.inl ⟨by simp [hn1, hn2], rfl⟩⟩
    · exact ⟨_, by rw [sch2, sch1], Or.inr ⟨by simp [hm2], [], rfl⟩⟩
  · rcases hcase2 with ⟨_, sch2⟩ | ⟨_, sch2⟩
    · exact ⟨_, by rw [sch2, sch1], Or.inr ⟨by simp [hm1], [], rfl⟩⟩
    · exact ⟨[.attachReport .THREAD_ERROR_NONE, .startReport .THREAD_ERROR_NONE,
          .attachReport .THREAD_ERROR_NONE, .startReport .THREAD_ERROR_NONE],
        by rw [sch2, sch1]; simp, Or.inr ⟨by simp [hm1], _, rfl⟩⟩

/-- C7 (counterexample): two consecutive `_AttachToThreadNetwork` calls on an initialized
manager with nothing pending, each with a valid commissioned dataset, callbacks 1 and 2,
both returning `CHIP_NO_ERROR`, on a native stack that reports the child role at every
query: neither call issues the native attach, nothing is scheduled, and after the scheduler
has run callback 2 has not been invoked. The same happens on a native stack on which the
first role query of each call fails and the later ones report the child role, where no
`thread_stop` is issued either. -/
theorem C7_second_callback_never_invoked :
    (sampleWorld []).mgr.mIsInitialized = true ∧
    envAlwaysChild.IsValid [1] = true ∧ envAlwaysChild.IsCommissioned [1] = true ∧
    (_AttachToThreadNetwork envAlwaysChild [1] (some 1) (sampleWorld [])).1 = .CHIP_NO_ERROR ∧
    (_AttachToThreadNetwork envAlwaysChild [1] (some 2)
      (_AttachToThreadNetwork envAlwaysChild [1] (some 1) (sampleWorld [])).2).1
      = .CHIP_NO_ERROR ∧
    (_AttachToThreadNetwork envAlwaysChild [1] (some 2)
      (_AttachToThreadNetwork envAlwaysChild [1] (some 1) (sampleWorld [])).2).2.scheduled
      = [] ∧
    (_AttachToThreadNetwork envAlwaysChild [1] (some 2)
      (_AttachToThreadNetwork envAlwaysChild [1] (some 1)
        (sampleWorld [])).2).2.mgr.mpConnectCallback = some 2 ∧
    (runAllScheduled (_AttachToThreadNetwork envAlwaysChild [1] (some 2)
      (_AttachToThreadNetwork envAlwaysChild [1] (some 1) (sampleWorld [])).2).2).onResultLog
      = [] ∧
    (runAllScheduled (_AttachToThreadNetwork envAlwaysChild [1] (some 2)
      (_AttachToThreadNetwork envAlwaysChild [1] (some 1) (sampleWorld [])).2).2).invocations 2
      = 0 ∧
    (_AttachToThreadNetwork envChildFirstQueryFails [1] (some 1) (sampleWorld [])).1
      = .CHIP_NO_ERROR ∧
    (_AttachToThreadNetwork envChildFirstQueryFails [1] (some 2)
      (_AttachToThreadNetwork envChildFirstQueryFails [1] (some 1) (sampleWorld [])).2).1
      = .CHIP_NO_ERROR ∧
    NativeCall.thread_stop ∉
      (_AttachToThreadNetwork envChildFirstQueryFails [1] (some 2)
        (_AttachToThreadNetwork envChildFirstQueryFails [1] (some 1)
          (sampleWorld [])).2).2.nativeCalls ∧
    NativeCall.thread_network_attach ∉
      (_AttachToThreadNetwork envChildFirstQueryFails [1] (some 2)
        (_AttachToThreadNetwork envChildFirstQueryFails [1] (some 1)
          (sampleWorld [])).2).2.nativeCalls ∧
    (_AttachToThreadNetwork envChildFirstQueryFails [1] (some 2)
      (_AttachToThreadNetwork envChildFirstQueryFails [1] (some 1)
        (sampleWorld [])).2).2.mgr.mpConnectCallback = some 2 ∧
    (runAllScheduled (_AttachToThreadNetwork envChildFirstQueryFails [1] (some 2)
      (_AttachToThreadNetwork envChildFirstQueryFails [1] (some 1)
        (sampleWorld [])).2).2).onResultLog = [] ∧
    (runAllScheduled (_AttachToThreadNetwork envChildFirstQueryFails [1] (some 2)
      (_AttachToThreadNetwork envChildFirstQueryFails [1] (some 1)
        (sampleWorld [])).2).2).invocations 2 = 0 := by
  refine ⟨rfl, rfl, rfl, ?_, ?_, ?_, ?_, ?_, ?_, ?_, ?_, ?_, ?_, ?_, ?_, ?_⟩ <;> decide

/-- C7 (amended): two consecutive `_AttachToThreadNetwork` calls with distinct callbacks
`cb1` and `cb2` and commissioned datasets, both returning `CHIP_NO_ERROR`, no work item run
in between. Once the scheduler has run every scheduled work item in order, the queue is
empty, `cb1` has not been invoked, and `cb2` has been invoked by the first queued report
that fires, if there is one. So `cb2` is invoked exactly once when a report able to fire was
already pending before the first call or at least one of the two calls issued the native
attach call (and thereby scheduled its reports), and `cb2` is not invoked at all when
neither is the case. When nothing was pending before the first call and a native attach was
issued, the one invocation reports success. -/
theorem C7_second_callback_fires_once (env : Env) (w : World) (ds1 ds2 : List Nat)
    (cb1 cb2 : Nat)
    (hcomm1 : env.IsCommissioned ds1 = true)
    (hcomm2 : env.IsCommissioned ds2 = true)
    (hne : cb1 ≠ cb2)
    (hok1 : (_AttachToThreadNetwork env ds1 (some cb1) w).1 = .CHIP_NO_ERROR)
    (hok2 : (_AttachToThreadNetwork env ds2 (some cb2)
      (_AttachToThreadNetwork env ds1 (some cb1) w).2).1 = .CHIP_NO_ERROR) :
    (runAllScheduled (_AttachToThreadNetwork env ds2 (some cb2)
      (_AttachToThreadNetwork env ds1 (some cb1) w).2).2).scheduled = [] ∧
    (runAllScheduled (_AttachToThreadNetwork env ds2 (some cb2)
      (_AttachToThreadNetwork env ds1 (some cb1) w).2).2).invocations cb1
        = w.invocations cb1 ∧
    (runAllScheduled (_AttachToThreadNetwork env ds2 (some cb2)
      (_AttachToThreadNetwork env ds1 (some cb1) w).2).2).onResultLog
        = w.onResultLog ++ expectedReports cb2
            (_AttachToThreadNetwork env ds2 (some cb2)
              (_AttachToThreadNetwork env ds1 (some cb1) w).2).2.scheduled ∧
    (((∃ l ∈ w.scheduled, l.fires = true) ∨
        NativeCall.thread_network_attach ∈
          (_AttachToThreadNetwork env ds2 (some cb2)
            (_AttachToThreadNetwork env ds1 (some cb1) w).2).2.nativeCalls.drop
              w.nativeCalls.length) →
      (∃ st, (runAllScheduled (_AttachToThreadNetwork env ds2 (some cb2)
        (_AttachToThreadNetwork env ds1 (some cb1) w).2).2).onResultLog
          = w.onResultLog ++ [(cb2, st)]) ∧
      (runAllScheduled (_AttachToThreadNetwork env ds2 (some cb2)
        (_AttachToThreadNetwork env ds1 (some cb1) w).2).2).invocations cb2
          = w.invocations cb2 + 1) ∧
    (¬ ((∃ l ∈ w.scheduled, l.fires = true) ∨
        NativeCall.thread_network_attach ∈
          (_AttachToThreadNetwork env ds2 (some cb2)
            (_AttachToThreadNetwork env ds1 (some cb1) w).2).2.nativeCalls.drop
              w.nativeCalls.length) →
      (runAllScheduled (_AttachToThreadNetwork env ds2 (some cb2)
        (_AttachToThreadNetwork env ds1 (some cb1) w).2).2).onResultLog = w.onResultLog ∧
      (runAllScheduled (_AttachToThreadNetwork env ds2 (some cb2)
        (_AttachToThreadNetwork env ds1 (some cb1) w).2).2).invocations cb2
          = w.invocations cb2) ∧
    (w.scheduled = [] →
      NativeCall.thread_network_attach ∈
        (_AttachToThreadNetwork env ds2 (some cb2)
          (_AttachToThreadNetwork env ds1 (some cb1) w).2).2.nativeCalls.drop
            w.nativeCalls.length →
      (runAllScheduled (_AttachToThreadNetwork env ds2 (some cb2)
        (_AttachToThreadNetwork env ds1 (some cb1) w).2).2).onResultLog
          = w.onResultLog ++ [(cb2, .kSuccess)]) := by
  rcases attachTwice_queue env w ds1 ds2 (some cb1) (some cb2) hcomm1 hcomm2 hok1 hok2 with
    ⟨own, hq, hown⟩
  have hlog1 := (attachToThreadNetwork_frame env ds1 (some cb1) w).2.2
  have hlog2 := (attachToThreadNetwork_frame env ds2 (some cb2)
    (_AttachToThreadNetwork env ds1 (some cb1) w).2).2.2
  have hcb2 := (attachToThreadNetwork_success_cases env ds2 (some cb2) _ hcomm2 hok2).1
  generalize hw2 : (_AttachToThreadNetwork env ds2 (some cb2)
    (_AttachToThreadNetwork env ds1 (some cb1) w).2).2 = w2 at *
  have hrun : (runAllScheduled w2).onResultLog
      = w.onResultLog ++ expectedReports cb2 w2.scheduled := by
    rw [runAllScheduled, runScheduledItems_log _ _ cb2 hcb2, hlog2, hlog1]
  have hpos : (∃ l ∈ w2.scheduled, l.fires = true) →
      (∃ st, (runAllScheduled w2).onResultLog = w.onResultLog ++ [(cb2, st)]) ∧
      (runAllScheduled w2).invocations cb1 = w.invocations cb1 ∧
      (runAllScheduled w2).invocations cb2 = w.invocations cb2 + 1 := by
    intro hf
    rcases expectedReports_of_fires cb2 _ hf with ⟨st, hst⟩
    have hl : (runAllScheduled w2).onResultLog = w.onResultLog ++ [(cb2, st)] := by
      rw [hrun, hst]
    refine ⟨⟨st, hl⟩, ?_, ?_⟩
    · rw [invocations_append_single w _ cb2 cb1 st hl]
      simp [Ne.symm hne]
    · rw [invocations_append_single w _ cb2 cb2 st hl]
      simp
  have hneg : (∀ l ∈ w2.scheduled, l.fires = false) →
      (runAllScheduled w2).onResultLog = w.onResultLog := by
    intro hnf
    rw [hrun, expectedReports_of_none_fires cb2 _ hnf]
    simp
  refine ⟨runScheduledItems_scheduled _ w2 rfl, ?_, hrun, ?_, ?_, ?_⟩
  · by_cases hf : ∃ l ∈ w2.scheduled, l.fires = true
    · exact (hpos hf).2.1
    · exact invocations_of_log_eq w _ cb1 (hneg (by
        intro l hl
        cases hlf : l.fires with
        | false => rfl
        | true => exact absurd ⟨l, hl, hlf⟩ hf))
  · intro hcond
    have hf : ∃ l ∈ w2.scheduled, l.fires = true := by
      rcases hcond with ⟨l, hl, hlf⟩ | hattach
      · exact ⟨l, by rw [hq]; simp [hl], hlf⟩
      · rcases hown with ⟨hnot, _⟩ | ⟨_, rest, hrest⟩
        · exact absurd hattach hnot
        · exact ⟨.startReport .THREAD_ERROR_NONE, by rw [hq, hrest]; simp, rfl⟩
    exact ⟨(hpos hf).1, (hpos hf).2.2⟩
  · intro hcond
    have hnf : ∀ l ∈ w2.scheduled, l.fires = false := by
      rcases hown with ⟨_, hnil⟩ | ⟨hmem, _⟩
      · intro l hl
        rw [hq, hnil, List.append_nil] at hl
        cases hlf : l.fires with
        | false => rfl
        | true => exact absurd (Or.inl ⟨l, hl, hlf⟩) hcond
      · exact absurd (Or.inr hmem) hcond
    exact ⟨hneg hnf, invocations_of_log_eq w _ cb2 (hneg hnf)⟩
  · intro hempty hattach
    rcases hown with ⟨hnot, _⟩ | ⟨_, rest, hrest⟩
    · exact absurd hattach hnot
    · rw [hrun, hq, hempty, hrest]
      simp [expectedReports, ScheduledLambda.fires, ScheduledLambda.reportedStatus]

/-- Witness of C7 (amended): the native stack reports the disabled role and accepts every
call, so each of the two calls issues the native attach; callback 2 is invoked once, with
success, and callback 1 never. -/
theorem C7_second_callback_fires_once_witness :
    (runAllScheduled (_AttachToThreadNetwork envAllSuccess [1] (some 2)
      (_AttachToThreadNetwork envAllSuccess [1] (some 1) (sampleWorld [])).2).2).onResultLog
      = [(2, .kSuccess)] ∧
    (runAllScheduled (_AttachToThreadNetwork envAllSuccess [1] (some 2)
      (_AttachToThreadNetwork envAllSuccess [1] (some 1) (sampleWorld [])).2).2).invocations 1
      = 0 ∧
    (runAllScheduled (_AttachToThreadNetwork envAllSuccess [1] (some 2)
      (_AttachToThreadNetwork envAllSuccess [1] (some 1) (sampleWorld [])).2).2).invocations 2
      = 1 := by
  have h := C7_second_callback_fires_once envAllSuccess (sampleWorld []) [1] [1] 1 2
    rfl rfl (by decide) (by decide) (by decide)
  exact ⟨h.2.2.2.2.2 rfl (by decide), h.2.1, (h.2.2.2.1 (Or.inr (by decide))).2⟩

end chip.DeviceLayer
